import Mathlib

/-!
# Rendering pipeline of the `ct_config` data source

Shallow embedding of `ct/datasource_ct_config.go`: the functions `renderConfig`,
`fccToIgnition`, `mergeFCCSnippets`, `mergeFCC11`, `mergeFCCV10`, `renderCLC`,
`clcToIgnition` and `dataSourceCTConfigRead`.

Conventions of the embedding.

* Go `string` and `[]byte` are both `String`; the conversions `[]byte(s)` and
  `string(b)` keep the content and are the identity here.  A `nil` byte slice is
  the empty string, as `string(nil) == ""`.
* A Go result `(v, err)` produced by a function of this file is a pair
  `α × Option GoError`, `none` being the `nil` error.  This keeps the value that a
  function returns next to a non-nil error (`mergeFCC11` returns the object merged
  so far).
* The imported libraries (`fcct`, `clct`, the three `ignition` versions,
  `encoding/json`, `hashcode`) are not part of the repository.  They are the fields
  of `Libs`, and every theorem holds for an arbitrary `Libs`.  A library call whose
  value the code never reads when the error is non-nil is a function into `Except`.
-/

namespace CT

/-- Go error values, up to what the program can observe: identity with the sentinel
`fcct.ErrNoVariant` (the test `err == fcct.ErrNoVariant`) and the text of `Error()`.
`foreign` is an error value made by a library which is not the sentinel; `Errorf` is a
value made by `fmt.Errorf` (a fresh value, never identical to the sentinel). -/
inductive GoError where
  | ErrNoVariant : GoError
  | foreign (msg : String) : GoError
  | Errorf (msg : String) : GoError
deriving DecidableEq

/-- Go `common.BaseOptions`. -/
structure BaseOptions where
  FilesDir : String
deriving DecidableEq

/-- Go `common.TranslateOptions`, which embeds `BaseOptions`. -/
structure TranslateOptions extends BaseOptions where
  Pretty : Bool
  Strict : Bool
deriving DecidableEq

/-- The imported libraries.  The object types are opaque to the program, which only
parses, merges, appends and serializes them.

* `Translate` is `fcct.Translate` (bytes or error; the report is dropped by the code).
  The files below `FilesDir` do not change during a render, so it is a function of the
  document and the options.
* `Parse31`, `Parse30` are `ignition31.Parse`, `ignition30.Parse`; their errors are only
  ever formatted with `%v`, so they are given by their message.
* `Marshal..`, `MarshalIndent..` are `json.Marshal`, `json.MarshalIndent` at the three
  object types; `encoding/json` returns `nil` bytes with every error and its errors are
  not the `fcct` sentinel, so they are given by their message.
* `clctParse`, `clctConvert` are `clct.Parse`, `clct.Convert`; `Entries`, `IsFatal`,
  `reportString` are `report.Entries`, `report.IsFatal()`, `report.String()`.
* `zero23` is the zero value `ignitionTypes.Config{}`.
* `ErrNoVariantText` is the text of `fcct.ErrNoVariant.Error()`.
* `hashcodeString` is `hashcode.String`. -/
structure Libs where
  Config31 : Type
  Config30 : Type
  Config23 : Type
  CLC : Type
  AST : Type
  Entry : Type
  Report : Type
  ErrNoVariantText : String
  Translate : String → TranslateOptions → Except GoError String
  Parse31 : String → Except String Config31
  Parse30 : String → Except String Config30
  Merge31 : Config31 → Config31 → Config31
  Merge30 : Config30 → Config30 → Config30
  Marshal31 : Config31 → Except String String
  MarshalIndent31 : Config31 → String → String → Except String String
  Marshal30 : Config30 → Except String String
  MarshalIndent30 : Config30 → String → String → Except String String
  clctParse : String → CLC × AST × Report
  clctConvert : CLC → String → AST → Config23 × Report
  Entries : Report → List Entry
  IsFatal : Report → Bool
  reportString : Report → String
  Append : Config23 → Config23 → Config23
  zero23 : Config23
  Marshal23 : Config23 → Except String String
  MarshalIndent23 : Config23 → String → String → Except String String
  hashcodeString : String → Int

/-- Go `err.Error()`, which is what `%v` prints for an error. -/
def GoError.Error (L : Libs) : GoError → String
  | GoError.ErrNoVariant => L.ErrNoVariantText
  | GoError.foreign msg => msg
  | GoError.Errorf msg => msg

/-- The Go pair `([]byte, error)` returned by `json.Marshal` and `json.MarshalIndent`. -/
def jsonResult : Except String String → String × Option GoError
  | Except.ok b => (b, none)
  | Except.error msg => ("", some (GoError.foreign msg))

/-- The attributes of `schema.ResourceData` the data source reads and writes.  An element
of `snippets` is `none` when the interface value is `nil`.  `rendered` is `none` and `id`
is empty until `Set` and `SetId` are called. -/
structure ResourceData where
  content : String
  platform : String
  files_dir : String
  snippets : List (Option String)
  pretty_print : Bool
  strict : Bool
  rendered : Option String
  id : String
deriving DecidableEq

/-- Go `clcToIgnition`: parse a Container Linux Config and convert it. -/
def clcToIgnition (L : Libs) (data : String) (platform : String) (strict : Bool) :
    L.Config23 × Option GoError :=
  match L.clctParse data with
  | (clc, ast, report) =>
    if strict && decide ((L.Entries report).length > 0) then
      (L.zero23, some (GoError.Errorf
        ("error strict parsing Container Linux Config: " ++ L.reportString report)))
    else if L.IsFatal report then
      (L.zero23, some (GoError.Errorf
        ("error parsing Container Linux Config: " ++ L.reportString report)))
    else
      match L.clctConvert clc platform ast with
      | (ign, report) =>
        if L.IsFatal report then
          (L.zero23, some (GoError.Errorf
            ("error converting to Ignition: " ++ L.reportString report)))
        else
          (ign, none)

/-- The `for` loop of Go `renderCLC` together with the serialization that follows it:
`ign` is the object accumulated so far, the list holds the snippets still to process. -/
def renderCLC_loop (L : Libs) (platform : String) (pretty strict : Bool) :
    L.Config23 → List String → String × Option GoError
  | ign, [] =>
    if pretty then jsonResult (L.MarshalIndent23 ign "" "  ")
    else jsonResult (L.Marshal23 ign)
  | ign, snippet :: rest =>
    match clcToIgnition L snippet platform strict with
    | (_, some err) => ("", some err)
    | (ignext, none) => renderCLC_loop L platform pretty strict (L.Append ign ignext) rest

/-- Go `renderCLC`: translate a Container Linux Config and its snippets. -/
def renderCLC (L : Libs) (data : String) (platform : String) (pretty strict : Bool)
    (snippets : List String) : String × Option GoError :=
  match clcToIgnition L data platform strict with
  | (_, some err) => ("", some err)
  | (ign, none) => renderCLC_loop L platform pretty strict ign snippets

/-- Go `mergeFCC11`: merge FCC v1.1.0 snippets. -/
def mergeFCC11 (L : Libs) (ign : L.Config31) (snippets : List String)
    (pretty strict : Bool) : L.Config31 × Option GoError :=
  match snippets with
  | [] => (ign, none)
  | snippet :: rest =>
    match L.Translate snippet { FilesDir := "", Pretty := pretty, Strict := strict } with
    | Except.error err =>
      if err = GoError.ErrNoVariant then
        (ign, some (GoError.Errorf
          ("Fedora CoreOS snippets require `variant`: " ++ err.Error L)))
      else
        (ign, some (GoError.Errorf ("snippet v1.1.0 translate error: " ++ err.Error L)))
    | Except.ok ignextBytes =>
      match L.Parse31 ignextBytes with
      | Except.error err =>
        (ign, some (GoError.Errorf ("snippet parse error: " ++ err ++ ", expect v1.1.0")))
      | Except.ok ignext => mergeFCC11 L (L.Merge31 ign ignext) rest pretty strict

/-- Go `mergeFCCV10`: merge FCC v1.0.0 snippets. -/
def mergeFCCV10 (L : Libs) (ign : L.Config30) (snippets : List String)
    (pretty strict : Bool) : L.Config30 × Option GoError :=
  match snippets with
  | [] => (ign, none)
  | snippet :: rest =>
    match L.Translate snippet { FilesDir := "", Pretty := pretty, Strict := strict } with
    | Except.error err =>
      if err = GoError.ErrNoVariant then
        (ign, some (GoError.Errorf
          ("Fedora CoreOS snippets require `variant`: " ++ err.Error L)))
      else
        (ign, some (GoError.Errorf ("snippet v1.0.0 translate error: " ++ err.Error L)))
    | Except.ok ignextBytes =>
      match L.Parse30 ignextBytes with
      | Except.error err =>
        (ign, some (GoError.Errorf ("snippet parse error: " ++ err ++ ", expect v1.0.0")))
      | Except.ok ignext => mergeFCCV10 L (L.Merge30 ign ignext) rest pretty strict

/-- Go `mergeFCCSnippets`: parse the main config with the Ignition 3.1 parser, falling
back to the Ignition 3.0 parser, then merge the snippets at the chosen version. -/
def mergeFCCSnippets (L : Libs) (ignBytes : String) (pretty strict : Bool)
    (snippets : List String) : String × Option GoError :=
  match L.Parse31 ignBytes with
  | Except.ok ign =>
    match mergeFCC11 L ign snippets pretty strict with
    | (_, some err) => ("", some (GoError.Errorf ("FCC v1.1.0 merge error: " ++ err.Error L)))
    | (ign, none) =>
      if pretty then jsonResult (L.MarshalIndent31 ign "" "  ")
      else jsonResult (L.Marshal31 ign)
  | Except.error _ =>
    match L.Parse30 ignBytes with
    | Except.error err => ("", some (GoError.Errorf ("FCC v1.0.0 parse error: " ++ err)))
    | Except.ok ign30 =>
      match mergeFCCV10 L ign30 snippets pretty strict with
      | (_, some err) =>
        ("", some (GoError.Errorf ("FCC v1.0.0 merge error: " ++ err.Error L)))
      | (ign30, none) =>
        if pretty then jsonResult (L.MarshalIndent30 ign30 "" "  ")
        else jsonResult (L.Marshal30 ign30)

/-- Go `fccToIgnition`: translate a Fedora CoreOS config to Ignition v3.X.Y. -/
def fccToIgnition (L : Libs) (data : String) (filesDir : String) (pretty strict : Bool)
    (snippets : List String) : String × Option GoError :=
  match L.Translate data { FilesDir := filesDir, Pretty := pretty, Strict := strict } with
  | Except.error err => ("", some err)
  | Except.ok ignBytes =>
    if snippets.length = 0 then (ignBytes, none)
    else mergeFCCSnippets L ignBytes pretty strict snippets

/-- The `[]string` that Go `renderConfig` builds from the `snippets` attribute: a `nil`
element leaves the zero value `""` in its slot. -/
def snippetStrings (snippetsIface : List (Option String)) : List String :=
  snippetsIface.map fun v =>
    match v with
    | some s => s
    | none => ""

/-- Go `renderConfig`: render a Fedora CoreOS Config or Container Linux Config as
Ignition JSON. -/
def renderConfig (L : Libs) (d : ResourceData) : String × Option GoError :=
  let content := d.content
  let platform := d.platform
  let filesDir := d.files_dir
  let snippetsIface := d.snippets
  let pretty := d.pretty_print
  let strict := d.strict
  let snippets := snippetStrings snippetsIface
  match fccToIgnition L content filesDir pretty strict snippets with
  | (ign, err) =>
    if err = some GoError.ErrNoVariant then
      renderCLC L content platform pretty strict snippets
    else
      (ign, err)

/-- Go `dataSourceCTConfigRead`: the resource data after the call and the returned
error. -/
def dataSourceCTConfigRead (L : Libs) (d : ResourceData) : ResourceData × Option GoError :=
  match renderConfig L d with
  | (rendered, none) =>
    ({ d with rendered := some rendered, id := toString (L.hashcodeString rendered) }, none)
  | (_, some err) => (d, some err)

/-! ## A concrete library instance

A small executable instance of `Libs`, used to evaluate the pipeline on explicit inputs.
Objects are lists of entries.  A document `B1:x` is a Fedora CoreOS config of version
1.1.0 holding `x`, `B0:x` one of version 1.0.0, `B9:x` one of a version whose Ignition
output neither parser knows, any other document starting with `B` is rejected by the
transpiler, and a document not starting with `B` has no variant.  The serializers fail on
an object that holds the entry `NaN`.  Each
Ignition parser rejects bytes of another version as unsupported and bytes of its own
version whose content starts with `!` as not valid; the messages are those of the
Ignition library.  For the Container Linux parser `W:x` carries a warning, `F:x` a fatal
entry, and the conversion is fatal on platform `bad`. -/

/-- Toy `fcct.Translate`. -/
def demoTranslate (data : String) (_ : TranslateOptions) : Except GoError String :=
  match data.data with
  | 'B' :: '1' :: ':' :: rest => Except.ok ("3.1:" ++ String.mk rest)
  | 'B' :: '0' :: ':' :: rest => Except.ok ("3.0:" ++ String.mk rest)
  | 'B' :: '9' :: ':' :: rest => Except.ok ("3.9:" ++ String.mk rest)
  | 'B' :: _ => Except.error (GoError.foreign "unsupported version")
  | _ => Except.error GoError.ErrNoVariant

/-- Toy `ignition31.Parse`. -/
def demoParse31 (b : String) : Except String (List String) :=
  match b.data with
  | '3' :: '.' :: '1' :: ':' :: '!' :: _ => Except.error "config is not valid"
  | '3' :: '.' :: '1' :: ':' :: rest => Except.ok [String.mk rest]
  | _ => Except.error "unsupported config version"

/-- Toy `ignition30.Parse`. -/
def demoParse30 (b : String) : Except String (List String) :=
  match b.data with
  | '3' :: '.' :: '0' :: ':' :: '!' :: _ => Except.error "config is not valid"
  | '3' :: '.' :: '0' :: ':' :: rest => Except.ok [String.mk rest]
  | _ => Except.error "unsupported config version"

/-- Toy `clct.Parse`. -/
def demoClctParse (data : String) : List String × Unit × List (Bool × String) :=
  match data.data with
  | 'W' :: ':' :: rest => ([String.mk rest], (), [(false, "deprecated key")])
  | 'F' :: ':' :: _ => ([], (), [(true, "bad yaml")])
  | _ => ([data], (), [])

/-- Toy `clct.Convert`. -/
def demoClctConvert (clc : List String) (platform : String) (_ : Unit) :
    List String × List (Bool × String) :=
  if platform = "bad" then ([], [(true, "unknown platform")])
  else (clc.map fun x => platform ++ "/" ++ x, [])

/-- Toy `json.Marshal`, tagged with the schema version. -/
def demoMarshal (tag : String) (c : List String) : Except String String :=
  if "NaN" ∈ c then Except.error "json: unsupported value: NaN"
  else Except.ok (tag ++ "[" ++ ",".intercalate c ++ "]")

/-- Toy `json.MarshalIndent`, tagged with the schema version. -/
def demoMarshalIndent (tag : String) (c : List String) (pre indent : String) :
    Except String String :=
  if "NaN" ∈ c then Except.error "json: unsupported value: NaN"
  else Except.ok (pre ++ tag ++ "[" ++ indent ++ ("," ++ indent).intercalate c ++ "]")

/-- The toy library instance. -/
def demoLibs : Libs where
  Config31 := List String
  Config30 := List String
  Config23 := List String
  CLC := List String
  AST := Unit
  Entry := Bool × String
  Report := List (Bool × String)
  ErrNoVariantText := "error parsing variant; must be specified"
  Translate := demoTranslate
  Parse31 := demoParse31
  Parse30 := demoParse30
  Merge31 := fun a b => a ++ b
  Merge30 := fun a b => a ++ b
  Marshal31 := demoMarshal "3.1.0"
  MarshalIndent31 := demoMarshalIndent "3.1.0"
  Marshal30 := demoMarshal "3.0.0"
  MarshalIndent30 := demoMarshalIndent "3.0.0"
  clctParse := demoClctParse
  clctConvert := demoClctConvert
  Entries := fun r => r
  IsFatal := fun r => r.any fun e => e.1
  reportString := fun r => ";".intercalate (r.map fun e => e.2)
  Append := fun a b => a ++ b
  zero23 := []
  Marshal23 := demoMarshal "2.3.0"
  MarshalIndent23 := demoMarshalIndent "2.3.0"
  hashcodeString := fun s => s.length

/-- Resource data with the given content and snippets and every option at its default. -/
def demoData (content : String) (snippets : List (Option String)) : ResourceData where
  content := content
  platform := ""
  files_dir := ""
  snippets := snippets
  pretty_print := false
  strict := false
  rendered := none
  id := ""

/-! ## Vocabulary of the statements -/

/-- The translate options `fccToIgnition` passes for the principal document. -/
def principalOptions (d : ResourceData) : TranslateOptions :=
  { FilesDir := d.files_dir, Pretty := d.pretty_print, Strict := d.strict }

/-- The translate options `mergeFCC11` and `mergeFCCV10` pass for a snippet: the files
directory is left at its zero value. -/
def snippetOptions (pretty strict : Bool) : TranslateOptions :=
  { FilesDir := "", Pretty := pretty, Strict := strict }

/-- The text `needle` occurs in the message `msg`. -/
def Mentions (msg needle : String) : Prop :=
  needle.data <:+: msg.data

instance (msg needle : String) : Decidable (Mentions msg needle) :=
  inferInstanceAs (Decidable (needle.data <:+: msg.data))

/-- A snippet transpiled with the snippet options and parsed by the Ignition 3.1 parser;
`none` when either step fails. -/
def snippetObject31 (L : Libs) (pretty strict : Bool) (s : String) : Option L.Config31 :=
  match L.Translate s (snippetOptions pretty strict) with
  | Except.error _ => none
  | Except.ok sb =>
    match L.Parse31 sb with
    | Except.error _ => none
    | Except.ok c => some c

/-- A snippet transpiled with the snippet options and parsed by the Ignition 3.0 parser;
`none` when either step fails. -/
def snippetObject30 (L : Libs) (pretty strict : Bool) (s : String) : Option L.Config30 :=
  match L.Translate s (snippetOptions pretty strict) with
  | Except.error _ => none
  | Except.ok sb =>
    match L.Parse30 sb with
    | Except.error _ => none
    | Except.ok c => some c

/-- Serialization of an Ignition 3.1 object: `json.MarshalIndent` with empty line start
and two spaces when `pretty`, `json.Marshal` otherwise. -/
def serialize31 (L : Libs) (pretty : Bool) (c : L.Config31) : String × Option GoError :=
  if pretty then jsonResult (L.MarshalIndent31 c "" "  ") else jsonResult (L.Marshal31 c)

/-- Serialization of an Ignition 3.0 object. -/
def serialize30 (L : Libs) (pretty : Bool) (c : L.Config30) : String × Option GoError :=
  if pretty then jsonResult (L.MarshalIndent30 c "" "  ") else jsonResult (L.Marshal30 c)

/-- Serialization of an Ignition 2.3 object. -/
def serialize23 (L : Libs) (pretty : Bool) (c : L.Config23) : String × Option GoError :=
  if pretty then jsonResult (L.MarshalIndent23 c "" "  ") else jsonResult (L.Marshal23 c)

/-- The Ignition 3.1 branch of `mergeFCCSnippets`, from the parsed principal `ign` on:
merge with `mergeFCC11`, then serialize. -/
def versionB1Path (L : Libs) (ign : L.Config31) (pretty strict : Bool)
    (snippets : List String) : String × Option GoError :=
  match mergeFCC11 L ign snippets pretty strict with
  | (_, some err) => ("", some (GoError.Errorf ("FCC v1.1.0 merge error: " ++ err.Error L)))
  | (merged, none) => serialize31 L pretty merged

/-- The Ignition 3.0 branch of `mergeFCCSnippets`, from the parsed principal `ign30` on:
merge with `mergeFCCV10`, then serialize. -/
def versionB0Path (L : Libs) (ign30 : L.Config30) (pretty strict : Bool)
    (snippets : List String) : String × Option GoError :=
  match mergeFCCV10 L ign30 snippets pretty strict with
  | (_, some err) => ("", some (GoError.Errorf ("FCC v1.0.0 merge error: " ++ err.Error L)))
  | (merged, none) => serialize30 L pretty merged

/-- The message `msg` begins with the text `start`. -/
def BeginsWith (msg start : String) : Prop :=
  start.data <+: msg.data

instance (msg start : String) : Decidable (BeginsWith msg start) :=
  inferInstanceAs (Decidable (start.data <+: msg.data))

/-- The report `clct.Parse` returns for a document. -/
def parseReport (L : Libs) (data : String) : L.Report :=
  (L.clctParse data).2.2

/-- The report `clct.Convert` returns for a document on a platform. -/
def convertReport (L : Libs) (data platform : String) : L.Report :=
  (L.clctConvert (L.clctParse data).1 platform (L.clctParse data).2.1).2

/-- Processing of a Container Linux document fails: `strict` is set and the parse report
has an entry, or the parse report is fatal, or the conversion report is fatal. -/
def clcFails (L : Libs) (platform : String) (strict : Bool) (data : String) : Bool :=
  (strict && !(L.Entries (parseReport L data)).isEmpty) ||
    L.IsFatal (parseReport L data) || L.IsFatal (convertReport L data platform)

/-- The render aborts: `renderConfig` returns no bytes together with an error, and
`dataSourceCTConfigRead` returns that error and leaves the resource data as it was, so
neither `rendered` nor the ID is set. -/
def Aborts (L : Libs) (d : ResourceData) : Prop :=
  ∃ e : GoError, renderConfig L d = ("", some e) ∧ dataSourceCTConfigRead L d = (d, some e)

/-! ## Auxiliary facts -/

theorem jsonResult_not_sentinel (r : Except String String) :
    (jsonResult r).2 ≠ some GoError.ErrNoVariant := by
  cases r <;> simp [jsonResult]

theorem jsonResult_empty_of_error (r : Except String String)
    (h : (jsonResult r).2 ≠ none) : (jsonResult r).1 = "" := by
  cases r <;> simp_all [jsonResult]

theorem mergeFCCSnippets_not_sentinel (L : Libs) (ignBytes : String) (pretty strict : Bool)
    (snippets : List String) :
    (mergeFCCSnippets L ignBytes pretty strict snippets).2 ≠ some GoError.ErrNoVariant := by
  unfold mergeFCCSnippets
  cases L.Parse31 ignBytes with
  | ok ign =>
    simp only
    rcases mergeFCC11 L ign snippets pretty strict with ⟨c, _ | e⟩
    · cases pretty <;> simp [jsonResult_not_sentinel]
    · simp
  | error e1 =>
    simp only
    cases L.Parse30 ignBytes with
    | error e0 => simp
    | ok ign30 =>
      simp only
      rcases mergeFCCV10 L ign30 snippets pretty strict with ⟨c, _ | e⟩
      · cases pretty <;> simp [jsonResult_not_sentinel]
      · simp

theorem mergeFCCSnippets_empty_of_error (L : Libs) (ignBytes : String) (pretty strict : Bool)
    (snippets : List String)
    (h : (mergeFCCSnippets L ignBytes pretty strict snippets).2 ≠ none) :
    (mergeFCCSnippets L ignBytes pretty strict snippets).1 = "" := by
  unfold mergeFCCSnippets at h ⊢
  cases h31 : L.Parse31 ignBytes with
  | ok ign =>
    simp only [h31] at h ⊢
    rcases hm : mergeFCC11 L ign snippets pretty strict with ⟨c, _ | e⟩
    · simp only [hm] at h ⊢
      cases pretty
      · exact jsonResult_empty_of_error _ (by simpa using h)
      · exact jsonResult_empty_of_error _ (by simpa using h)
    · rfl
  | error e1 =>
    simp only [h31] at h ⊢
    cases h30 : L.Parse30 ignBytes with
    | error e0 => rfl
    | ok ign30 =>
      simp only [h30] at h ⊢
      rcases hm : mergeFCCV10 L ign30 snippets pretty strict with ⟨c, _ | e⟩
      · simp only [hm] at h ⊢
        cases pretty
        · exact jsonResult_empty_of_error _ (by simpa using h)
        · exact jsonResult_empty_of_error _ (by simpa using h)
      · rfl

theorem fccToIgnition_sentinel_iff (L : Libs) (data filesDir : String) (pretty strict : Bool)
    (snippets : List String) :
    (fccToIgnition L data filesDir pretty strict snippets).2 = some GoError.ErrNoVariant ↔
      L.Translate data { FilesDir := filesDir, Pretty := pretty, Strict := strict }
        = Except.error GoError.ErrNoVariant := by
  unfold fccToIgnition
  cases L.Translate data { FilesDir := filesDir, Pretty := pretty, Strict := strict } with
  | error e => simp
  | ok b =>
    simp only
    split
    · simp
    · simp [mergeFCCSnippets_not_sentinel]

theorem fccToIgnition_empty_of_error (L : Libs) (data filesDir : String) (pretty strict : Bool)
    (snippets : List String)
    (h : (fccToIgnition L data filesDir pretty strict snippets).2 ≠ none) :
    (fccToIgnition L data filesDir pretty strict snippets).1 = "" := by
  unfold fccToIgnition at h ⊢
  cases ht : L.Translate data { FilesDir := filesDir, Pretty := pretty, Strict := strict } with
  | error e => rfl
  | ok b =>
    simp only [ht] at h ⊢
    split
    · rename_i h0
      simp [h0] at h
    · rename_i h0
      simp only [h0, if_false] at h
      exact mergeFCCSnippets_empty_of_error L b pretty strict snippets h

theorem renderCLC_loop_empty_of_error (L : Libs) (platform : String) (pretty strict : Bool)
    (snippets : List String) (ign : L.Config23)
    (h : (renderCLC_loop L platform pretty strict ign snippets).2 ≠ none) :
    (renderCLC_loop L platform pretty strict ign snippets).1 = "" := by
  induction snippets generalizing ign with
  | nil =>
    unfold renderCLC_loop at h ⊢
    cases pretty
    · exact jsonResult_empty_of_error _ (by simpa using h)
    · exact jsonResult_empty_of_error _ (by simpa using h)
  | cons s rest ih =>
    unfold renderCLC_loop at h ⊢
    rcases hc : clcToIgnition L s platform strict with ⟨c, _ | e⟩
    · simp only [hc] at h ⊢
      exact ih _ h
    · rfl

theorem renderCLC_empty_of_error (L : Libs) (data platform : String) (pretty strict : Bool)
    (snippets : List String)
    (h : (renderCLC L data platform pretty strict snippets).2 ≠ none) :
    (renderCLC L data platform pretty strict snippets).1 = "" := by
  unfold renderCLC at h ⊢
  rcases hc : clcToIgnition L data platform strict with ⟨c, _ | e⟩
  · simp only [hc] at h ⊢
    exact renderCLC_loop_empty_of_error L platform pretty strict snippets c h
  · rfl

theorem renderConfig_eq (L : Libs) (d : ResourceData) :
    renderConfig L d =
      if (fccToIgnition L d.content d.files_dir d.pretty_print d.strict
            (snippetStrings d.snippets)).2 = some GoError.ErrNoVariant then
        renderCLC L d.content d.platform d.pretty_print d.strict (snippetStrings d.snippets)
      else
        fccToIgnition L d.content d.files_dir d.pretty_print d.strict
          (snippetStrings d.snippets) := by
  rfl

theorem renderConfig_empty_of_error (L : Libs) (d : ResourceData)
    (h : (renderConfig L d).2 ≠ none) : (renderConfig L d).1 = "" := by
  rw [renderConfig_eq] at h ⊢
  split
  · rename_i hs
    rw [if_pos hs] at h
    exact renderCLC_empty_of_error _ _ _ _ _ _ h
  · rename_i hs
    rw [if_neg hs] at h
    exact fccToIgnition_empty_of_error _ _ _ _ _ _ h

theorem renderConfig_of_translate_ok_nil (L : Libs) (d : ResourceData) (b : String)
    (hs : d.snippets = [])
    (ht : L.Translate d.content (principalOptions d) = Except.ok b) :
    renderConfig L d = (b, none) := by
  have hf : fccToIgnition L d.content d.files_dir d.pretty_print d.strict
      (snippetStrings d.snippets) = (b, none) := by
    unfold fccToIgnition
    unfold principalOptions at ht
    rw [ht, hs]
    rfl
  rw [renderConfig_eq, hf]
  simp

theorem renderConfig_of_translate_sentinel (L : Libs) (d : ResourceData)
    (ht : L.Translate d.content (principalOptions d) = Except.error GoError.ErrNoVariant) :
    renderConfig L d =
      renderCLC L d.content d.platform d.pretty_print d.strict (snippetStrings d.snippets) := by
  rw [renderConfig_eq, if_pos]
  exact (fccToIgnition_sentinel_iff _ _ _ _ _ _).2 ht

theorem renderConfig_of_translate_not_sentinel (L : Libs) (d : ResourceData)
    (ht : L.Translate d.content (principalOptions d) ≠ Except.error GoError.ErrNoVariant) :
    renderConfig L d =
      fccToIgnition L d.content d.files_dir d.pretty_print d.strict
        (snippetStrings d.snippets) := by
  rw [renderConfig_eq, if_neg]
  exact fun h => ht ((fccToIgnition_sentinel_iff _ _ _ _ _ _).1 h)

theorem renderConfig_of_translate_ok (L : Libs) (d : ResourceData) (b : String)
    (hs : snippetStrings d.snippets ≠ [])
    (ht : L.Translate d.content (principalOptions d) = Except.ok b) :
    renderConfig L d =
      mergeFCCSnippets L b d.pretty_print d.strict (snippetStrings d.snippets) := by
  rw [renderConfig_of_translate_not_sentinel L d (by rw [ht]; simp)]
  unfold fccToIgnition
  unfold principalOptions at ht
  rw [ht]
  simp only
  rw [if_neg]
  intro h
  exact hs (List.length_eq_zero.mp h)

/-! ## The claims -/

/-- C1, no-snippet fidelity: when the snippet list is empty and `fcct.Translate` succeeds
on the principal document with output `b`, `renderConfig` returns exactly `b` and no
error.  The result does not depend on the two Ignition parsers: it is the same after
replacing them by arbitrary functions. -/
theorem renderConfig_no_snippets (L : Libs) (d : ResourceData) (b : String)
    (hs : d.snippets = [])
    (ht : L.Translate d.content (principalOptions d) = Except.ok b) :
    renderConfig L d = (b, none) ∧
    ∀ (p31 : String → Except String L.Config31) (p30 : String → Except String L.Config30),
      renderConfig { L with Parse31 := p31, Parse30 := p30 } d = (b, none) :=
  ⟨renderConfig_of_translate_ok_nil L d b hs ht,
   fun p31 p30 =>
    renderConfig_of_translate_ok_nil { L with Parse31 := p31, Parse30 := p30 } d b hs ht⟩

/-- Witness of C1: a principal whose Ignition output neither parser accepts is rendered
byte for byte when there is no snippet. -/
theorem renderConfig_no_snippets_witness :
    demoParse31 "3.1:!core" = Except.error "config is not valid" ∧
    demoParse30 "3.1:!core" = Except.error "unsupported config version" ∧
    renderConfig demoLibs (demoData "B1:!core" []) = ("3.1:!core", none) :=
  ⟨rfl, rfl,
   (renderConfig_no_snippets demoLibs (demoData "B1:!core" []) "3.1:!core" rfl rfl).1⟩

/-- C2, dialect dispatch: the guard of the Container Linux branch of `renderConfig` (the
error of `fccToIgnition` is the sentinel) holds if and only if `fcct.Translate` returns
the sentinel `ErrNoVariant` for the principal.  When it does, the result of
`renderConfig` is the result of `renderCLC` on the principal and all the snippets; when
it does not, the result is that of `fccToIgnition`; and when the transpiler returns an
error `e` other than the sentinel, the result is the empty string with `e` itself. -/
theorem renderConfig_dialect_dispatch (L : Libs) (d : ResourceData) :
    ((fccToIgnition L d.content d.files_dir d.pretty_print d.strict
        (snippetStrings d.snippets)).2 = some GoError.ErrNoVariant ↔
      L.Translate d.content (principalOptions d) = Except.error GoError.ErrNoVariant) ∧
    (L.Translate d.content (principalOptions d) = Except.error GoError.ErrNoVariant →
      renderConfig L d =
        renderCLC L d.content d.platform d.pretty_print d.strict
          (snippetStrings d.snippets)) ∧
    (L.Translate d.content (principalOptions d) ≠ Except.error GoError.ErrNoVariant →
      renderConfig L d =
        fccToIgnition L d.content d.files_dir d.pretty_print d.strict
          (snippetStrings d.snippets)) ∧
    (∀ e : GoError, e ≠ GoError.ErrNoVariant →
      L.Translate d.content (principalOptions d) = Except.error e →
      renderConfig L d = ("", some e)) := by
  refine ⟨fccToIgnition_sentinel_iff _ _ _ _ _ _, renderConfig_of_translate_sentinel L d,
    renderConfig_of_translate_not_sentinel L d, ?_⟩
  intro e hne ht
  rw [renderConfig_of_translate_not_sentinel L d (by rw [ht]; simpa using hne)]
  unfold fccToIgnition
  unfold principalOptions at ht
  rw [ht]

/-- Witness of C2: a document without variant and its snippet go through `renderCLC`; a
document the transpiler rejects for another reason yields that error unchanged. -/
theorem renderConfig_dialect_dispatch_witness :
    renderConfig demoLibs (demoData "core" [some "alice"]) = ("2.3.0[/core,/alice]", none) ∧
    renderConfig demoLibs (demoData "Bx" [some "alice"])
      = ("", some (GoError.foreign "unsupported version")) :=
  ⟨((renderConfig_dialect_dispatch demoLibs (demoData "core" [some "alice"])).2.1
      rfl).trans (by decide),
   (renderConfig_dialect_dispatch demoLibs (demoData "Bx" [some "alice"])).2.2.2
      (GoError.foreign "unsupported version") (by decide) rfl⟩

/-! ### Schema-version dispatch -/

theorem mergeFCC11_replace_parse30 (L : Libs) (p30 : String → Except String L.Config30)
    (snippets : List String) (pretty strict : Bool) (ign : L.Config31) :
    mergeFCC11 { L with Parse30 := p30 } ign snippets pretty strict
      = mergeFCC11 L ign snippets pretty strict := by
  induction snippets generalizing ign with
  | nil => rfl
  | cons s rest ih =>
    unfold mergeFCC11
    cases L.Translate s { FilesDir := "", Pretty := pretty, Strict := strict } with
    | error e => cases e <;> rfl
    | ok sb =>
      simp only
      cases L.Parse31 sb with
      | error e => rfl
      | ok c => exact ih _

theorem mergeFCCV10_replace_parse31 (L : Libs) (p31 : String → Except String L.Config31)
    (snippets : List String) (pretty strict : Bool) (ign : L.Config30) :
    mergeFCCV10 { L with Parse31 := p31 } ign snippets pretty strict
      = mergeFCCV10 L ign snippets pretty strict := by
  induction snippets generalizing ign with
  | nil => rfl
  | cons s rest ih =>
    unfold mergeFCCV10
    cases L.Translate s { FilesDir := "", Pretty := pretty, Strict := strict } with
    | error e => cases e <;> rfl
    | ok sb =>
      simp only
      cases L.Parse30 sb with
      | error e => rfl
      | ok c => exact ih _

theorem mergeFCCSnippets_of_parse31 (L : Libs) (ignBytes : String) (pretty strict : Bool)
    (snippets : List String) (ign : L.Config31) (h31 : L.Parse31 ignBytes = Except.ok ign) :
    mergeFCCSnippets L ignBytes pretty strict snippets
      = versionB1Path L ign pretty strict snippets := by
  unfold mergeFCCSnippets versionB1Path
  rw [h31]
  rfl

theorem mergeFCCSnippets_of_parse30 (L : Libs) (ignBytes : String) (pretty strict : Bool)
    (snippets : List String) (e1 : String) (ign30 : L.Config30)
    (h31 : L.Parse31 ignBytes = Except.error e1)
    (h30 : L.Parse30 ignBytes = Except.ok ign30) :
    mergeFCCSnippets L ignBytes pretty strict snippets
      = versionB0Path L ign30 pretty strict snippets := by
  unfold mergeFCCSnippets versionB0Path
  rw [h31]
  simp only
  rw [h30]
  rfl

theorem mergeFCCSnippets_of_no_parse (L : Libs) (ignBytes : String) (pretty strict : Bool)
    (snippets : List String) (e1 e0 : String)
    (h31 : L.Parse31 ignBytes = Except.error e1)
    (h30 : L.Parse30 ignBytes = Except.error e0) :
    mergeFCCSnippets L ignBytes pretty strict snippets
      = ("", some (GoError.Errorf ("FCC v1.0.0 parse error: " ++ e0))) := by
  unfold mergeFCCSnippets
  rw [h31]
  simp only
  rw [h30]

theorem mergeFCCSnippets_replace_parse30 (L : Libs) (p30 : String → Except String L.Config30)
    (ignBytes : String) (pretty strict : Bool) (snippets : List String) (ign : L.Config31)
    (h31 : L.Parse31 ignBytes = Except.ok ign) :
    mergeFCCSnippets { L with Parse30 := p30 } ignBytes pretty strict snippets
      = mergeFCCSnippets L ignBytes pretty strict snippets := by
  rw [mergeFCCSnippets_of_parse31 L ignBytes pretty strict snippets ign h31,
    mergeFCCSnippets_of_parse31 { L with Parse30 := p30 } ignBytes pretty strict snippets ign h31]
  unfold versionB1Path
  rw [mergeFCC11_replace_parse30]
  rcases mergeFCC11 L ign snippets pretty strict with ⟨c, _ | e⟩
  · rfl
  · cases e <;> rfl

theorem mergeFCCSnippets_replace_parse31 (L : Libs) (p31 : String → Except String L.Config31)
    (ignBytes : String) (pretty strict : Bool) (snippets : List String) (e1 : String)
    (h31 : L.Parse31 ignBytes = Except.error e1) (hp : p31 ignBytes = L.Parse31 ignBytes) :
    mergeFCCSnippets { L with Parse31 := p31 } ignBytes pretty strict snippets
      = mergeFCCSnippets L ignBytes pretty strict snippets := by
  have h31b : ({ L with Parse31 := p31 } : Libs).Parse31 ignBytes = Except.error e1 := by
    rw [← h31, ← hp]
  cases h30 : L.Parse30 ignBytes with
  | error e0 =>
    rw [mergeFCCSnippets_of_no_parse L ignBytes pretty strict snippets e1 e0 h31 h30,
      mergeFCCSnippets_of_no_parse { L with Parse31 := p31 } ignBytes pretty strict snippets
        e1 e0 h31b h30]
  | ok ign30 =>
    rw [mergeFCCSnippets_of_parse30 L ignBytes pretty strict snippets e1 ign30 h31 h30,
      mergeFCCSnippets_of_parse30 { L with Parse31 := p31 } ignBytes pretty strict snippets
        e1 ign30 h31b h30]
    unfold versionB0Path
    rw [mergeFCCV10_replace_parse31]
    rcases mergeFCCV10 L ign30 snippets pretty strict with ⟨c, _ | e⟩
    · rfl
    · cases e <;> rfl

/-- C5, newest-first dispatch: when the Ignition 3.1 parser accepts the bytes,
`mergeFCCSnippets` is the 3.1 branch, whatever the 3.0 parser is; when the 3.1 parser
rejects and the 3.0 parser accepts, it is the 3.0 branch; when both reject, it returns no
bytes and the error "FCC v1.0.0 parse error: " followed by the 3.0 parser's message, in
which the 3.1 parser's message has no part. -/
theorem mergeFCCSnippets_newest_first (L : Libs) (ignBytes : String) (pretty strict : Bool)
    (snippets : List String) :
    (∀ ign : L.Config31, L.Parse31 ignBytes = Except.ok ign →
      ∀ p30 : String → Except String L.Config30,
        mergeFCCSnippets { L with Parse30 := p30 } ignBytes pretty strict snippets
          = versionB1Path L ign pretty strict snippets) ∧
    (∀ (e1 : String) (ign30 : L.Config30), L.Parse31 ignBytes = Except.error e1 →
      L.Parse30 ignBytes = Except.ok ign30 →
        mergeFCCSnippets L ignBytes pretty strict snippets
          = versionB0Path L ign30 pretty strict snippets) ∧
    (∀ e1 e0 : String, L.Parse31 ignBytes = Except.error e1 →
      L.Parse30 ignBytes = Except.error e0 →
        mergeFCCSnippets L ignBytes pretty strict snippets
          = ("", some (GoError.Errorf ("FCC v1.0.0 parse error: " ++ e0)))) := by
  refine ⟨?_, ?_, ?_⟩
  · intro ign h31 p30
    rw [mergeFCCSnippets_replace_parse30 L p30 ignBytes pretty strict snippets ign h31]
    exact mergeFCCSnippets_of_parse31 L ignBytes pretty strict snippets ign h31
  · intro e1 ign30 h31 h30
    exact mergeFCCSnippets_of_parse30 L ignBytes pretty strict snippets e1 ign30 h31 h30
  · intro e1 e0 h31 h30
    exact mergeFCCSnippets_of_no_parse L ignBytes pretty strict snippets e1 e0 h31 h30

/-- Witness of C5: one input for each of the three cases. -/
theorem mergeFCCSnippets_newest_first_witness :
    mergeFCCSnippets demoLibs "3.1:core" false false ["B1:alice"]
      = ("3.1.0[core,alice]", none) ∧
    mergeFCCSnippets demoLibs "3.0:core" false false ["B0:alice"]
      = ("3.0.0[core,alice]", none) ∧
    mergeFCCSnippets demoLibs "3.1:!core" false false ["B1:alice"]
      = ("", some (GoError.Errorf "FCC v1.0.0 parse error: unsupported config version")) :=
  ⟨((mergeFCCSnippets_newest_first demoLibs "3.1:core" false false ["B1:alice"]).1
      ["core"] rfl demoLibs.Parse30).trans (by decide),
   ((mergeFCCSnippets_newest_first demoLibs "3.0:core" false false ["B0:alice"]).2.1
      "unsupported config version" ["core"] rfl rfl).trans (by decide),
   (mergeFCCSnippets_newest_first demoLibs "3.1:!core" false false ["B1:alice"]).2.2
      "config is not valid" "unsupported config version" rfl rfl⟩

/-! ### The snippet loops of the Fedora CoreOS path -/

theorem mentions_append_left {m n : String} (x : String) (h : Mentions m n) :
    Mentions (x ++ m) n := by
  unfold Mentions at h ⊢
  rw [String.data_append]
  exact h.trans (List.suffix_append x.data m.data).isInfix

theorem mentions_append_right {m n : String} (x : String) (h : Mentions m n) :
    Mentions (m ++ x) n := by
  unfold Mentions at h ⊢
  rw [String.data_append]
  exact h.trans (List.prefix_append m.data x.data).isInfix

theorem exists_objects_of_forall_isSome {α β : Type} (f : α → Option β) (xs : List α)
    (h : ∀ x ∈ xs, (f x).isSome = true) :
    ∃ cs : List β, List.Forall₂ (fun x c => f x = some c) xs cs := by
  induction xs with
  | nil => exact ⟨[], List.Forall₂.nil⟩
  | cons x rest ih =>
    obtain ⟨cs, hcs⟩ := ih (fun y hy => h y (List.mem_cons_of_mem x hy))
    obtain ⟨c, hc⟩ := Option.isSome_iff_exists.mp (h x (List.mem_cons_self x rest))
    exact ⟨c :: cs, List.Forall₂.cons hc hcs⟩

theorem snippetObject31_eq_some (L : Libs) (pretty strict : Bool) (s : String)
    (c : L.Config31) (h : snippetObject31 L pretty strict s = some c) :
    ∃ sb, L.Translate s (snippetOptions pretty strict) = Except.ok sb ∧
      L.Parse31 sb = Except.ok c := by
  unfold snippetObject31 at h
  cases ht : L.Translate s (snippetOptions pretty strict) with
  | error e => simp [ht] at h
  | ok sb =>
    simp only [ht] at h
    cases hp : L.Parse31 sb with
    | error e => simp [hp] at h
    | ok c2 =>
      simp only [hp, Option.some.injEq] at h
      exact ⟨sb, rfl, by rw [hp, h]⟩

theorem snippetObject30_eq_some (L : Libs) (pretty strict : Bool) (s : String)
    (c : L.Config30) (h : snippetObject30 L pretty strict s = some c) :
    ∃ sb, L.Translate s (snippetOptions pretty strict) = Except.ok sb ∧
      L.Parse30 sb = Except.ok c := by
  unfold snippetObject30 at h
  cases ht : L.Translate s (snippetOptions pretty strict) with
  | error e => simp [ht] at h
  | ok sb =>
    simp only [ht] at h
    cases hp : L.Parse30 sb with
    | error e => simp [hp] at h
    | ok c2 =>
      simp only [hp, Option.some.injEq] at h
      exact ⟨sb, rfl, by rw [hp, h]⟩

theorem mergeFCC11_cons_ok (L : Libs) (pretty strict : Bool) (ign : L.Config31) (s : String)
    (rest : List String) (c : L.Config31) (h : snippetObject31 L pretty strict s = some c) :
    mergeFCC11 L ign (s :: rest) pretty strict
      = mergeFCC11 L (L.Merge31 ign c) rest pretty strict := by
  obtain ⟨sb, ht, hp⟩ := snippetObject31_eq_some L pretty strict s c h
  unfold snippetOptions at ht
  rw [mergeFCC11, ht]
  simp only
  rw [hp]

theorem mergeFCCV10_cons_ok (L : Libs) (pretty strict : Bool) (ign : L.Config30) (s : String)
    (rest : List String) (c : L.Config30) (h : snippetObject30 L pretty strict s = some c) :
    mergeFCCV10 L ign (s :: rest) pretty strict
      = mergeFCCV10 L (L.Merge30 ign c) rest pretty strict := by
  obtain ⟨sb, ht, hp⟩ := snippetObject30_eq_some L pretty strict s c h
  unfold snippetOptions at ht
  rw [mergeFCCV10, ht]
  simp only
  rw [hp]

theorem mergeFCC11_cons_sentinel (L : Libs) (pretty strict : Bool) (ign : L.Config31)
    (s : String) (rest : List String)
    (h : L.Translate s (snippetOptions pretty strict) = Except.error GoError.ErrNoVariant) :
    mergeFCC11 L ign (s :: rest) pretty strict
      = (ign, some (GoError.Errorf
          ("Fedora CoreOS snippets require `variant`: " ++ L.ErrNoVariantText))) := by
  unfold snippetOptions at h
  rw [mergeFCC11, h]
  rfl

theorem mergeFCCV10_cons_sentinel (L : Libs) (pretty strict : Bool) (ign : L.Config30)
    (s : String) (rest : List String)
    (h : L.Translate s (snippetOptions pretty strict) = Except.error GoError.ErrNoVariant) :
    mergeFCCV10 L ign (s :: rest) pretty strict
      = (ign, some (GoError.Errorf
          ("Fedora CoreOS snippets require `variant`: " ++ L.ErrNoVariantText))) := by
  unfold snippetOptions at h
  rw [mergeFCCV10, h]
  rfl

theorem mergeFCC11_cons_parse_error (L : Libs) (pretty strict : Bool) (ign : L.Config31)
    (s : String) (rest : List String) (sb e : String)
    (ht : L.Translate s (snippetOptions pretty strict) = Except.ok sb)
    (hp : L.Parse31 sb = Except.error e) :
    mergeFCC11 L ign (s :: rest) pretty strict
      = (ign, some (GoError.Errorf ("snippet parse error: " ++ e ++ ", expect v1.1.0"))) := by
  unfold snippetOptions at ht
  rw [mergeFCC11, ht]
  simp only
  rw [hp]

theorem mergeFCCV10_cons_parse_error (L : Libs) (pretty strict : Bool) (ign : L.Config30)
    (s : String) (rest : List String) (sb e : String)
    (ht : L.Translate s (snippetOptions pretty strict) = Except.ok sb)
    (hp : L.Parse30 sb = Except.error e) :
    mergeFCCV10 L ign (s :: rest) pretty strict
      = (ign, some (GoError.Errorf ("snippet parse error: " ++ e ++ ", expect v1.0.0"))) := by
  unfold snippetOptions at ht
  rw [mergeFCCV10, ht]
  simp only
  rw [hp]

theorem mergeFCC11_append_ok (L : Libs) (pretty strict : Bool) (pre rest : List String)
    (cs : List L.Config31) (ign : L.Config31)
    (h : List.Forall₂ (fun s c => snippetObject31 L pretty strict s = some c) pre cs) :
    mergeFCC11 L ign (pre ++ rest) pretty strict
      = mergeFCC11 L (cs.foldl L.Merge31 ign) rest pretty strict := by
  induction h generalizing ign with
  | nil => rfl
  | cons hc _ ih =>
    rw [List.cons_append, mergeFCC11_cons_ok L pretty strict ign _ _ _ hc, ih]
    rfl

theorem mergeFCCV10_append_ok (L : Libs) (pretty strict : Bool) (pre rest : List String)
    (cs : List L.Config30) (ign : L.Config30)
    (h : List.Forall₂ (fun s c => snippetObject30 L pretty strict s = some c) pre cs) :
    mergeFCCV10 L ign (pre ++ rest) pretty strict
      = mergeFCCV10 L (cs.foldl L.Merge30 ign) rest pretty strict := by
  induction h generalizing ign with
  | nil => rfl
  | cons hc _ ih =>
    rw [List.cons_append, mergeFCCV10_cons_ok L pretty strict ign _ _ _ hc, ih]
    rfl

theorem mergeFCC11_all_ok (L : Libs) (pretty strict : Bool) (snippets : List String)
    (cs : List L.Config31) (ign : L.Config31)
    (h : List.Forall₂ (fun s c => snippetObject31 L pretty strict s = some c) snippets cs) :
    mergeFCC11 L ign snippets pretty strict = (cs.foldl L.Merge31 ign, none) := by
  have h2 := mergeFCC11_append_ok L pretty strict snippets [] cs ign h
  rw [List.append_nil] at h2
  rw [h2]
  rfl

theorem mergeFCCV10_all_ok (L : Libs) (pretty strict : Bool) (snippets : List String)
    (cs : List L.Config30) (ign : L.Config30)
    (h : List.Forall₂ (fun s c => snippetObject30 L pretty strict s = some c) snippets cs) :
    mergeFCCV10 L ign snippets pretty strict = (cs.foldl L.Merge30 ign, none) := by
  have h2 := mergeFCCV10_append_ok L pretty strict snippets [] cs ign h
  rw [List.append_nil] at h2
  rw [h2]
  rfl

theorem mergeFCC11_error_of_mem (L : Libs) (pretty strict : Bool) (snippets : List String)
    (s : String) (hmem : s ∈ snippets)
    (hs : L.Translate s (snippetOptions pretty strict) = Except.error GoError.ErrNoVariant)
    (ign : L.Config31) :
    ∃ e, (mergeFCC11 L ign snippets pretty strict).2 = some e := by
  induction snippets generalizing ign with
  | nil => simp at hmem
  | cons x rest ih =>
    cases hx : snippetObject31 L pretty strict x with
    | some c =>
      rw [mergeFCC11_cons_ok L pretty strict ign x rest c hx]
      rcases List.mem_cons.mp hmem with h | h
      · subst h
        unfold snippetObject31 at hx
        rw [hs] at hx
        simp at hx
      · exact ih h _
    | none =>
      unfold snippetObject31 snippetOptions at hx
      unfold mergeFCC11
      cases ht : L.Translate x { FilesDir := "", Pretty := pretty, Strict := strict } with
      | error e =>
        simp only
        split <;> exact ⟨_, rfl⟩
      | ok sb =>
        simp only [ht] at hx ⊢
        cases hp : L.Parse31 sb with
        | error e => exact ⟨_, rfl⟩
        | ok c => simp [hp] at hx

theorem mergeFCCV10_error_of_mem (L : Libs) (pretty strict : Bool) (snippets : List String)
    (s : String) (hmem : s ∈ snippets)
    (hs : L.Translate s (snippetOptions pretty strict) = Except.error GoError.ErrNoVariant)
    (ign : L.Config30) :
    ∃ e, (mergeFCCV10 L ign snippets pretty strict).2 = some e := by
  induction snippets generalizing ign with
  | nil => simp at hmem
  | cons x rest ih =>
    cases hx : snippetObject30 L pretty strict x with
    | some c =>
      rw [mergeFCCV10_cons_ok L pretty strict ign x rest c hx]
      rcases List.mem_cons.mp hmem with h | h
      · subst h
        unfold snippetObject30 at hx
        rw [hs] at hx
        simp at hx
      · exact ih h _
    | none =>
      unfold snippetObject30 snippetOptions at hx
      unfold mergeFCCV10
      cases ht : L.Translate x { FilesDir := "", Pretty := pretty, Strict := strict } with
      | error e =>
        simp only
        split <;> exact ⟨_, rfl⟩
      | ok sb =>
        simp only [ht] at hx ⊢
        cases hp : L.Parse30 sb with
        | error e => exact ⟨_, rfl⟩
        | ok c => simp [hp] at hx

/-- C6, ordered merge: for a principal whose transpiled bytes `b` parse at version K and a
non-empty snippet list in which every snippet, transpiled with the render's `pretty` and
`strict` and an empty files directory, parses at version K, `renderConfig` returns the
serialization (indented when `pretty`, compact otherwise) of the left fold of the
version-K merge over the snippet objects in list order, starting from the principal. -/
theorem renderConfig_ordered_merge (L : Libs) (d : ResourceData) (b : String)
    (ht : L.Translate d.content (principalOptions d) = Except.ok b)
    (hne : snippetStrings d.snippets ≠ []) :
    (∀ (p : L.Config31) (cs : List L.Config31), L.Parse31 b = Except.ok p →
      List.Forall₂ (fun s c => snippetObject31 L d.pretty_print d.strict s = some c)
        (snippetStrings d.snippets) cs →
      renderConfig L d = serialize31 L d.pretty_print (cs.foldl L.Merge31 p)) ∧
    (∀ (e1 : String) (p : L.Config30) (cs : List L.Config30),
      L.Parse31 b = Except.error e1 → L.Parse30 b = Except.ok p →
      List.Forall₂ (fun s c => snippetObject30 L d.pretty_print d.strict s = some c)
        (snippetStrings d.snippets) cs →
      renderConfig L d = serialize30 L d.pretty_print (cs.foldl L.Merge30 p)) := by
  refine ⟨?_, ?_⟩
  · intro p cs h31 hall
    rw [renderConfig_of_translate_ok L d b hne ht,
      mergeFCCSnippets_of_parse31 L b _ _ _ p h31]
    unfold versionB1Path
    rw [mergeFCC11_all_ok L _ _ _ cs p hall]
  · intro e1 p cs h31 h30 hall
    rw [renderConfig_of_translate_ok L d b hne ht,
      mergeFCCSnippets_of_parse30 L b _ _ _ e1 p h31 h30]
    unfold versionB0Path
    rw [mergeFCCV10_all_ok L _ _ _ cs p hall]

/-- Witness of C6: two snippets are layered over the principal in list order, at version
1.1.0 and at version 1.0.0 (a `nil` snippet is the empty document, which has no
variant, so the lists here hold strings only). -/
theorem renderConfig_ordered_merge_witness :
    renderConfig demoLibs (demoData "B1:core" [some "B1:alice", some "B1:bob"])
      = ("3.1.0[core,alice,bob]", none) ∧
    renderConfig demoLibs (demoData "B0:core" [some "B0:bob", some "B0:alice"])
      = ("3.0.0[core,bob,alice]", none) :=
  ⟨((renderConfig_ordered_merge demoLibs
        (demoData "B1:core" [some "B1:alice", some "B1:bob"]) "3.1:core" rfl (by decide)).1
      ["core"] [["alice"], ["bob"]] rfl
      (List.Forall₂.cons rfl (List.Forall₂.cons rfl List.Forall₂.nil))).trans (by decide),
   ((renderConfig_ordered_merge demoLibs
        (demoData "B0:core" [some "B0:bob", some "B0:alice"]) "3.0:core" rfl (by decide)).2
      "unsupported config version" ["core"] [["bob"], ["alice"]] rfl rfl
      (List.Forall₂.cons rfl (List.Forall₂.cons rfl List.Forall₂.nil))).trans (by decide)⟩

/-- C3, dialect isolation: if `fcct.Translate` succeeds on the principal and some snippet
of the list has no variant, `renderConfig` returns the empty string and an error that is
not the sentinel, and its result is that of `fccToIgnition`: the Container Linux branch
is not taken.  If moreover the principal's bytes parse at version K and every snippet
before that one is transpiled and parsed at version K, the error is the version-K merge
error wrapping "Fedora CoreOS snippets require `variant`: " and the sentinel's text, so
its message contains "snippets require `variant`". -/
theorem renderConfig_dialect_isolation (L : Libs) (d : ResourceData) (b s : String)
    (ht : L.Translate d.content (principalOptions d) = Except.ok b)
    (hmem : s ∈ snippetStrings d.snippets)
    (hs : L.Translate s (snippetOptions d.pretty_print d.strict)
      = Except.error GoError.ErrNoVariant) :
    ((renderConfig L d).1 = "" ∧
      (∃ e, (renderConfig L d).2 = some e ∧ e ≠ GoError.ErrNoVariant) ∧
      renderConfig L d = fccToIgnition L d.content d.files_dir d.pretty_print d.strict
        (snippetStrings d.snippets)) ∧
    (∀ pre post : List String, snippetStrings d.snippets = pre ++ s :: post →
      (∀ p : L.Config31, L.Parse31 b = Except.ok p →
        (∀ x ∈ pre, (snippetObject31 L d.pretty_print d.strict x).isSome = true) →
        renderConfig L d = ("", some (GoError.Errorf ("FCC v1.1.0 merge error: " ++
          ("Fedora CoreOS snippets require `variant`: " ++ L.ErrNoVariantText)))) ∧
        Mentions ("FCC v1.1.0 merge error: " ++
          ("Fedora CoreOS snippets require `variant`: " ++ L.ErrNoVariantText))
          "snippets require `variant`") ∧
      (∀ (e1 : String) (p : L.Config30), L.Parse31 b = Except.error e1 →
        L.Parse30 b = Except.ok p →
        (∀ x ∈ pre, (snippetObject30 L d.pretty_print d.strict x).isSome = true) →
        renderConfig L d = ("", some (GoError.Errorf ("FCC v1.0.0 merge error: " ++
          ("Fedora CoreOS snippets require `variant`: " ++ L.ErrNoVariantText)))) ∧
        Mentions ("FCC v1.0.0 merge error: " ++
          ("Fedora CoreOS snippets require `variant`: " ++ L.ErrNoVariantText))
          "snippets require `variant`")) := by
  have hne : snippetStrings d.snippets ≠ [] := List.ne_nil_of_mem hmem
  have hr := renderConfig_of_translate_ok L d b hne ht
  have hment : ∀ x : String, Mentions (x ++
      ("Fedora CoreOS snippets require `variant`: " ++ L.ErrNoVariantText))
      "snippets require `variant`" := fun x =>
    mentions_append_left x (mentions_append_right L.ErrNoVariantText (by decide))
  refine ⟨⟨?_, ?_, ?_⟩, ?_⟩
  · apply renderConfig_empty_of_error
    rw [hr]
    cases h31 : L.Parse31 b with
    | ok p =>
      rw [mergeFCCSnippets_of_parse31 L b _ _ _ p h31]
      unfold versionB1Path
      obtain ⟨e, he⟩ := mergeFCC11_error_of_mem L _ _ _ s hmem hs p
      rcases hm : mergeFCC11 L p (snippetStrings d.snippets) d.pretty_print d.strict
        with ⟨c, _ | e2⟩
      · rw [hm] at he
        simp at he
      · simp
    | error e1 =>
      cases h30 : L.Parse30 b with
      | error e0 =>
        rw [mergeFCCSnippets_of_no_parse L b _ _ _ e1 e0 h31 h30]
        simp
      | ok p =>
        rw [mergeFCCSnippets_of_parse30 L b _ _ _ e1 p h31 h30]
        unfold versionB0Path
        obtain ⟨e, he⟩ := mergeFCCV10_error_of_mem L _ _ _ s hmem hs p
        rcases hm : mergeFCCV10 L p (snippetStrings d.snippets) d.pretty_print d.strict
          with ⟨c, _ | e2⟩
        · rw [hm] at he
          simp at he
        · simp
  · rw [hr]
    have hns := mergeFCCSnippets_not_sentinel L b d.pretty_print d.strict
      (snippetStrings d.snippets)
    cases h31 : L.Parse31 b with
    | ok p =>
      rw [mergeFCCSnippets_of_parse31 L b _ _ _ p h31]
      unfold versionB1Path
      obtain ⟨e, he⟩ := mergeFCC11_error_of_mem L _ _ _ s hmem hs p
      rcases hm : mergeFCC11 L p (snippetStrings d.snippets) d.pretty_print d.strict
        with ⟨c, _ | e2⟩
      · rw [hm] at he
        simp at he
      · exact ⟨_, rfl, by simp⟩
    | error e1 =>
      cases h30 : L.Parse30 b with
      | error e0 =>
        rw [mergeFCCSnippets_of_no_parse L b _ _ _ e1 e0 h31 h30]
        exact ⟨_, rfl, by simp⟩
      | ok p =>
        rw [mergeFCCSnippets_of_parse30 L b _ _ _ e1 p h31 h30]
        unfold versionB0Path
        obtain ⟨e, he⟩ := mergeFCCV10_error_of_mem L _ _ _ s hmem hs p
        rcases hm : mergeFCCV10 L p (snippetStrings d.snippets) d.pretty_print d.strict
          with ⟨c, _ | e2⟩
        · rw [hm] at he
          simp at he
        · exact ⟨_, rfl, by simp⟩
  · exact renderConfig_of_translate_not_sentinel L d (by rw [ht]; simp)
  · intro pre post hsplit
    refine ⟨?_, ?_⟩
    · intro p h31 hpre
      refine ⟨?_, hment _⟩
      obtain ⟨cs, hcs⟩ := exists_objects_of_forall_isSome _ pre hpre
      rw [hr, mergeFCCSnippets_of_parse31 L b _ _ _ p h31]
      unfold versionB1Path
      rw [hsplit, mergeFCC11_append_ok L _ _ pre (s :: post) cs p hcs,
        mergeFCC11_cons_sentinel L _ _ _ s post hs]
      rfl
    · intro e1 p h31 h30 hpre
      refine ⟨?_, hment _⟩
      obtain ⟨cs, hcs⟩ := exists_objects_of_forall_isSome _ pre hpre
      rw [hr, mergeFCCSnippets_of_parse30 L b _ _ _ e1 p h31 h30]
      unfold versionB0Path
      rw [hsplit, mergeFCCV10_append_ok L _ _ pre (s :: post) cs p hcs,
        mergeFCCV10_cons_sentinel L _ _ _ s post hs]
      rfl

/-- Witness of C3: a version 1.1.0 principal with a good snippet followed by a Container
Linux snippet, and a version 1.0.0 principal followed by a `nil` snippet. -/
theorem renderConfig_dialect_isolation_witness :
    renderConfig demoLibs (demoData "B1:core" [some "B1:alice", some "clc"])
      = ("", some (GoError.Errorf ("FCC v1.1.0 merge error: " ++
          "Fedora CoreOS snippets require `variant`: error parsing variant; must be specified"))) ∧
    renderConfig demoLibs (demoData "B0:core" [none])
      = ("", some (GoError.Errorf ("FCC v1.0.0 merge error: " ++
          "Fedora CoreOS snippets require `variant`: error parsing variant; must be specified"))) :=
  ⟨((((renderConfig_dialect_isolation demoLibs
        (demoData "B1:core" [some "B1:alice", some "clc"]) "3.1:core" "clc"
        rfl (by decide) rfl).2 ["B1:alice"] [] rfl).1 ["core"] rfl (by decide)).1).trans
      (by decide),
   ((((renderConfig_dialect_isolation demoLibs
        (demoData "B0:core" [none]) "3.0:core" ""
        rfl (by decide) rfl).2 [] [] rfl).2 "unsupported config version" ["core"] rfl rfl
        (by decide)).1).trans (by decide)⟩

theorem renderConfig_replace_parse30 (L : Libs) (d : ResourceData) (b : String)
    (p : L.Config31) (p30 : String → Except String L.Config30)
    (ht : L.Translate d.content (principalOptions d) = Except.ok b)
    (hne : snippetStrings d.snippets ≠ [])
    (h31 : L.Parse31 b = Except.ok p) :
    renderConfig { L with Parse30 := p30 } d = renderConfig L d := by
  rw [renderConfig_of_translate_ok L d b hne ht,
    renderConfig_of_translate_ok { L with Parse30 := p30 } d b hne ht]
  exact mergeFCCSnippets_replace_parse30 L p30 b _ _ _ p h31

theorem renderConfig_replace_parse31 (L : Libs) (d : ResourceData) (b e1 : String)
    (p31 : String → Except String L.Config31)
    (ht : L.Translate d.content (principalOptions d) = Except.ok b)
    (hne : snippetStrings d.snippets ≠ [])
    (h31 : L.Parse31 b = Except.error e1) (hp : p31 b = L.Parse31 b) :
    renderConfig { L with Parse31 := p31 } d = renderConfig L d := by
  rw [renderConfig_of_translate_ok L d b hne ht,
    renderConfig_of_translate_ok { L with Parse31 := p31 } d b hne ht]
  exact mergeFCCSnippets_replace_parse31 L p31 b _ _ _ e1 h31 hp

/-- C4, version consistency: let the principal's bytes `b` parse at version K (1.1.0 when
the Ignition 3.1 parser accepts them, else 1.0.0 when the 3.0 parser does), and let `s` be
the first snippet that fails, every snippet before it being transpiled and parsed at
version K.  If `s` transpiles to `sb` and the version-K parser rejects `sb` with message
`e`, `renderConfig` returns the empty string and the version-K merge error wrapping
"snippet parse error: e, expect vK", whose message contains "expect v1.1.0", respectively
"expect v1.0.0".  The other version's parser plays no part: on the 1.1.0 path the result
is unchanged when the 3.0 parser is replaced by any function, and on the 1.0.0 path when
the 3.1 parser is replaced by any function that agrees with it on `b`. -/
theorem renderConfig_version_consistency (L : Libs) (d : ResourceData) (b s sb e : String)
    (pre post : List String)
    (ht : L.Translate d.content (principalOptions d) = Except.ok b)
    (hsplit : snippetStrings d.snippets = pre ++ s :: post)
    (hts : L.Translate s (snippetOptions d.pretty_print d.strict) = Except.ok sb) :
    (∀ p : L.Config31, L.Parse31 b = Except.ok p →
      (∀ x ∈ pre, (snippetObject31 L d.pretty_print d.strict x).isSome = true) →
      L.Parse31 sb = Except.error e →
      renderConfig L d = ("", some (GoError.Errorf ("FCC v1.1.0 merge error: " ++
        ("snippet parse error: " ++ e ++ ", expect v1.1.0")))) ∧
      Mentions ("FCC v1.1.0 merge error: " ++
        ("snippet parse error: " ++ e ++ ", expect v1.1.0")) "expect v1.1.0" ∧
      ∀ p30 : String → Except String L.Config30,
        renderConfig { L with Parse30 := p30 } d = renderConfig L d) ∧
    (∀ (e1 : String) (p : L.Config30), L.Parse31 b = Except.error e1 →
      L.Parse30 b = Except.ok p →
      (∀ x ∈ pre, (snippetObject30 L d.pretty_print d.strict x).isSome = true) →
      L.Parse30 sb = Except.error e →
      renderConfig L d = ("", some (GoError.Errorf ("FCC v1.0.0 merge error: " ++
        ("snippet parse error: " ++ e ++ ", expect v1.0.0")))) ∧
      Mentions ("FCC v1.0.0 merge error: " ++
        ("snippet parse error: " ++ e ++ ", expect v1.0.0")) "expect v1.0.0" ∧
      ∀ p31 : String → Except String L.Config31, p31 b = L.Parse31 b →
        renderConfig { L with Parse31 := p31 } d = renderConfig L d) := by
  have hne : snippetStrings d.snippets ≠ [] := by
    rw [hsplit]
    simp
  have hr := renderConfig_of_translate_ok L d b hne ht
  refine ⟨?_, ?_⟩
  · intro p h31 hpre hps
    refine ⟨?_, ?_, ?_⟩
    · obtain ⟨cs, hcs⟩ := exists_objects_of_forall_isSome _ pre hpre
      rw [hr, mergeFCCSnippets_of_parse31 L b _ _ _ p h31]
      unfold versionB1Path
      rw [hsplit, mergeFCC11_append_ok L _ _ pre (s :: post) cs p hcs,
        mergeFCC11_cons_parse_error L _ _ _ s post sb e hts hps]
      rfl
    · exact mentions_append_left _ (mentions_append_left _ (by decide))
    · intro p30
      exact renderConfig_replace_parse30 L d b p p30 ht hne h31
  · intro e1 p h31 h30 hpre hps
    refine ⟨?_, ?_, ?_⟩
    · obtain ⟨cs, hcs⟩ := exists_objects_of_forall_isSome _ pre hpre
      rw [hr, mergeFCCSnippets_of_parse30 L b _ _ _ e1 p h31 h30]
      unfold versionB0Path
      rw [hsplit, mergeFCCV10_append_ok L _ _ pre (s :: post) cs p hcs,
        mergeFCCV10_cons_parse_error L _ _ _ s post sb e hts hps]
      rfl
    · exact mentions_append_left _ (mentions_append_left _ (by decide))
    · intro p31 hp
      exact renderConfig_replace_parse31 L d b e1 p31 ht hne h31 hp

/-- Witness of C4: a version 1.1.0 principal with a version 1.0.0 snippet after a good
one, and a version 1.0.0 principal with a version 1.1.0 snippet. -/
theorem renderConfig_version_consistency_witness :
    renderConfig demoLibs (demoData "B1:core" [some "B1:alice", some "B0:bob"])
      = ("", some (GoError.Errorf ("FCC v1.1.0 merge error: " ++
          "snippet parse error: unsupported config version, expect v1.1.0"))) ∧
    renderConfig demoLibs (demoData "B0:core" [some "B1:bob"])
      = ("", some (GoError.Errorf ("FCC v1.0.0 merge error: " ++
          "snippet parse error: unsupported config version, expect v1.0.0"))) :=
  ⟨(((renderConfig_version_consistency demoLibs
        (demoData "B1:core" [some "B1:alice", some "B0:bob"]) "3.1:core" "B0:bob" "3.0:bob"
        "unsupported config version" ["B1:alice"] [] rfl rfl rfl).1 ["core"] rfl (by decide)
        rfl).1).trans (by decide),
   (((renderConfig_version_consistency demoLibs
        (demoData "B0:core" [some "B1:bob"]) "3.0:core" "B1:bob" "3.1:bob"
        "unsupported config version" [] [] rfl rfl rfl).2 "unsupported config version" ["core"] rfl rfl
        (by decide) rfl).1).trans (by decide)⟩

/-- C10, version-detection diagnostic: if `fcct.Translate` succeeds on the principal with
bytes `b`, there is at least one snippet, and both Ignition parsers reject `b`, the 3.1
parser with message `e1` and the 3.0 parser with message `e0`, then `renderConfig` returns
the empty string and the error "FCC v1.0.0 parse error: " followed by `e0`.  The Ignition
parsers report a version they do not know through one shared error, so that `e1` and `e0`
are the same text; whenever `e1` occurs in `e0`, in particular when they are equal, the
error returned carries the message of the 3.1 parser, the one tried first. -/
theorem renderConfig_version_detection_message (L : Libs) (d : ResourceData)
    (b e1 e0 : String)
    (ht : L.Translate d.content (principalOptions d) = Except.ok b)
    (hne : snippetStrings d.snippets ≠ [])
    (h31 : L.Parse31 b = Except.error e1)
    (h30 : L.Parse30 b = Except.error e0)
    (hagree : Mentions e0 e1) :
    renderConfig L d = ("", some (GoError.Errorf ("FCC v1.0.0 parse error: " ++ e0))) ∧
    ∃ err, (renderConfig L d).2 = some err ∧ Mentions (err.Error L) e1 := by
  have hr : renderConfig L d
      = ("", some (GoError.Errorf ("FCC v1.0.0 parse error: " ++ e0))) := by
    rw [renderConfig_of_translate_ok L d b hne ht]
    exact mergeFCCSnippets_of_no_parse L b _ _ _ e1 e0 h31 h30
  refine ⟨hr, GoError.Errorf ("FCC v1.0.0 parse error: " ++ e0), ?_, ?_⟩
  · rw [hr]
  · exact mentions_append_left _ hagree

/-- Witness of C10: a principal of a version neither parser knows, with one snippet; both
parsers answer "unsupported config version" and the returned error carries that text. -/
theorem renderConfig_version_detection_message_witness :
    demoLibs.Parse31 "3.9:core" = Except.error "unsupported config version" ∧
    demoLibs.Parse30 "3.9:core" = Except.error "unsupported config version" ∧
    renderConfig demoLibs (demoData "B9:core" [some "B1:alice"])
      = ("", some (GoError.Errorf "FCC v1.0.0 parse error: unsupported config version")) ∧
    Mentions "FCC v1.0.0 parse error: unsupported config version"
      "unsupported config version" :=
  ⟨rfl, rfl,
   (renderConfig_version_detection_message demoLibs (demoData "B9:core" [some "B1:alice"])
      "3.9:core" "unsupported config version" "unsupported config version" rfl (by decide)
      rfl rfl (by decide)).1,
   by decide⟩

/-- The agreement of the two messages cannot be dropped from the previous statement: in
the toy library, where bytes of version 3.1 with invalid content get "config is not
valid" from the 3.1 parser and "unsupported config version" from the 3.0 parser, the
error returned for such bytes holds the 3.0 parser's message only. -/
theorem mergeFCCSnippets_keeps_last_message :
    mergeFCCSnippets demoLibs "3.1:!core" false false ["B1:alice"]
      = ("", some (GoError.Errorf "FCC v1.0.0 parse error: unsupported config version")) ∧
    ¬ Mentions "FCC v1.0.0 parse error: unsupported config version" "config is not valid" :=
  ⟨by decide, by decide⟩

/-! ### The Container Linux path -/

theorem beginsWith_append_right {m n : String} (x : String) (h : BeginsWith m n) :
    BeginsWith (m ++ x) n := by
  unfold BeginsWith at h ⊢
  rw [String.data_append]
  exact h.trans (List.prefix_append m.data x.data)

theorem clcToIgnition_strict_entries (L : Libs) (data platform : String)
    (h : L.Entries (parseReport L data) ≠ []) :
    clcToIgnition L data platform true
      = (L.zero23, some (GoError.Errorf ("error strict parsing Container Linux Config: " ++
          L.reportString (parseReport L data)))) := by
  unfold clcToIgnition parseReport
  unfold parseReport at h
  rcases hp : L.clctParse data with ⟨clc, ast, report⟩
  rw [hp] at h
  have hlen : (L.Entries report).length > 0 := List.length_pos.mpr h
  simp [hlen]

theorem clcToIgnition_fatal (L : Libs) (data platform : String) (strict : Bool)
    (hs : strict = false ∨ L.Entries (parseReport L data) = [])
    (hf : L.IsFatal (parseReport L data) = true) :
    clcToIgnition L data platform strict
      = (L.zero23, some (GoError.Errorf ("error parsing Container Linux Config: " ++
          L.reportString (parseReport L data)))) := by
  unfold clcToIgnition parseReport
  unfold parseReport at hs hf
  rcases hp : L.clctParse data with ⟨clc, ast, report⟩
  rw [hp] at hs hf
  simp only at hs hf ⊢
  have hguard : (strict && decide ((L.Entries report).length > 0)) = false := by
    rcases hs with h | h
    · rw [h]
      rfl
    · rw [h]
      simp
  rw [hguard, hf]
  rfl

theorem clcToIgnition_strict_ok (L : Libs) (data platform : String)
    (h : (clcToIgnition L data platform true).2 = none) :
    L.Entries (parseReport L data) = [] := by
  by_contra hne
  rw [clcToIgnition_strict_entries L data platform hne] at h
  simp at h

theorem renderCLC_loop_strict_ok (L : Libs) (platform : String) (pretty : Bool)
    (snippets : List String) (ign : L.Config23)
    (h : (renderCLC_loop L platform pretty true ign snippets).2 = none) :
    ∀ s ∈ snippets, L.Entries (parseReport L s) = [] := by
  induction snippets generalizing ign with
  | nil => simp
  | cons x rest ih =>
    unfold renderCLC_loop at h
    rcases hc : clcToIgnition L x platform true with ⟨c, _ | e⟩
    · simp only [hc] at h
      intro s hsmem
      rcases List.mem_cons.mp hsmem with hx | hx
      · subst hx
        exact clcToIgnition_strict_ok L s platform (by rw [hc])
      · exact ih _ h s hx
    · simp [hc] at h

theorem renderCLC_loop_append_ok (L : Libs) (platform : String) (pretty strict : Bool)
    (pre rest : List String) (cs : List L.Config23) (ign : L.Config23)
    (h : List.Forall₂ (fun s c => clcToIgnition L s platform strict = (c, none)) pre cs) :
    renderCLC_loop L platform pretty strict ign (pre ++ rest)
      = renderCLC_loop L platform pretty strict (cs.foldl L.Append ign) rest := by
  induction h generalizing ign with
  | nil => rfl
  | cons hc _ ih =>
    rw [List.cons_append, renderCLC_loop, hc]
    simp only
    rw [ih]
    rfl

theorem exists_objects_of_forall_no_error {α β ε : Type} (f : α → β × Option ε)
    (xs : List α) (h : ∀ x ∈ xs, (f x).2 = none) :
    ∃ cs : List β, List.Forall₂ (fun x c => f x = (c, none)) xs cs := by
  induction xs with
  | nil => exact ⟨[], List.Forall₂.nil⟩
  | cons x rest ih =>
    obtain ⟨cs, hcs⟩ := ih (fun y hy => h y (List.mem_cons_of_mem x hy))
    have hx := h x (List.mem_cons_self x rest)
    refine ⟨(f x).1 :: cs, List.Forall₂.cons ?_ hcs⟩
    rw [← hx]

/-- C8, strict mode of the Container Linux path: with `strict` set and a parse report
that has at least one entry, `clcToIgnition` fails with the message "error strict parsing
Container Linux Config: " followed by the report, whether or not the report is fatal and
whatever the conversion function is; with `strict` unset or an empty report, a fatal
parse report yields "error parsing Container Linux Config: " followed by the report; and
a strict `renderCLC` that returns no error had an empty parse report for the principal
and for every snippet. -/
theorem clcToIgnition_strict_mode (L : Libs) (data platform : String) :
    (L.Entries (parseReport L data) ≠ [] →
      (∀ conv : L.CLC → String → L.AST → L.Config23 × L.Report,
        clcToIgnition { L with clctConvert := conv } data platform true
          = (L.zero23, some (GoError.Errorf
              ("error strict parsing Container Linux Config: " ++
                L.reportString (parseReport L data))))) ∧
      BeginsWith ("error strict parsing Container Linux Config: " ++
          L.reportString (parseReport L data))
        "error strict parsing Container Linux Config") ∧
    (∀ strict : Bool, strict = false ∨ L.Entries (parseReport L data) = [] →
      L.IsFatal (parseReport L data) = true →
      clcToIgnition L data platform strict
        = (L.zero23, some (GoError.Errorf ("error parsing Container Linux Config: " ++
            L.reportString (parseReport L data)))) ∧
      BeginsWith ("error parsing Container Linux Config: " ++
          L.reportString (parseReport L data))
        "error parsing Container Linux Config") ∧
    (∀ (pretty : Bool) (snippets : List String),
      (renderCLC L data platform pretty true snippets).2 = none →
      L.Entries (parseReport L data) = [] ∧
      ∀ s ∈ snippets, L.Entries (parseReport L s) = []) := by
  refine ⟨?_, ?_, ?_⟩
  · intro hne
    refine ⟨fun conv => ?_, beginsWith_append_right _ (by decide)⟩
    exact clcToIgnition_strict_entries { L with clctConvert := conv } data platform hne
  · intro strict hs hf
    exact ⟨clcToIgnition_fatal L data platform strict hs hf,
      beginsWith_append_right _ (by decide)⟩
  · intro pretty snippets h
    unfold renderCLC at h
    rcases hc : clcToIgnition L data platform true with ⟨c, _ | e⟩
    · simp only [hc] at h
      exact ⟨clcToIgnition_strict_ok L data platform (by rw [hc]),
        renderCLC_loop_strict_ok L platform pretty snippets c h⟩
    · simp [hc] at h

/-- Witness of C8: a document with one warning fails in strict mode, a document with a
fatal entry fails with the strict diagnostic when `strict` is set and with the parse
diagnostic when it is unset, and a strict render that succeeds. -/
theorem clcToIgnition_strict_mode_witness :
    clcToIgnition demoLibs "W:core" "ec2" true
      = ([], some (GoError.Errorf
          "error strict parsing Container Linux Config: deprecated key")) ∧
    (demoLibs.IsFatal (parseReport demoLibs "F:core") = true ∧
      clcToIgnition demoLibs "F:core" "ec2" true
        = ([], some (GoError.Errorf
            "error strict parsing Container Linux Config: bad yaml"))) ∧
    clcToIgnition demoLibs "F:core" "ec2" false
      = ([], some (GoError.Errorf "error parsing Container Linux Config: bad yaml")) ∧
    (demoLibs.Entries (parseReport demoLibs "core") = [] ∧
      ∀ s ∈ ["alice"], demoLibs.Entries (parseReport demoLibs s) = []) :=
  ⟨((clcToIgnition_strict_mode demoLibs "W:core" "ec2").1
      (fun h => List.noConfusion h)).1 demoLibs.clctConvert,
   ⟨rfl, ((clcToIgnition_strict_mode demoLibs "F:core" "ec2").1
      (fun h => List.noConfusion h)).1 demoLibs.clctConvert⟩,
   ((clcToIgnition_strict_mode demoLibs "F:core" "ec2").2.1 false (Or.inl rfl) rfl).1,
   (clcToIgnition_strict_mode demoLibs "core" "ec2").2.2 false ["alice"] rfl⟩

/-- C9, append on the Container Linux path: when `clcToIgnition` succeeds on the
principal with `c0` and on every snippet, `renderCLC` returns the serialization (indented
when `pretty`, compact otherwise) of the left fold of `Append` over the snippet objects
in list order, starting from `c0`; with no snippet it is the serialization of `c0`; when
the principal fails, or when a snippet fails after the principal and every earlier snippet
succeeded, the result is the empty string with that first error itself. -/
theorem renderCLC_append (L : Libs) (data platform : String) (pretty strict : Bool)
    (snippets : List String) :
    (∀ (c0 : L.Config23) (cs : List L.Config23),
      clcToIgnition L data platform strict = (c0, none) →
      List.Forall₂ (fun s c => clcToIgnition L s platform strict = (c, none)) snippets cs →
      renderCLC L data platform pretty strict snippets
        = serialize23 L pretty (cs.foldl L.Append c0)) ∧
    (∀ c0 : L.Config23, clcToIgnition L data platform strict = (c0, none) →
      renderCLC L data platform pretty strict [] = serialize23 L pretty c0) ∧
    (∀ (c : L.Config23) (e : GoError),
      clcToIgnition L data platform strict = (c, some e) →
      renderCLC L data platform pretty strict snippets = ("", some e)) ∧
    (∀ (c0 c : L.Config23) (e : GoError) (pre post : List String) (s : String),
      clcToIgnition L data platform strict = (c0, none) →
      snippets = pre ++ s :: post →
      (∀ x ∈ pre, (clcToIgnition L x platform strict).2 = none) →
      clcToIgnition L s platform strict = (c, some e) →
      renderCLC L data platform pretty strict snippets = ("", some e)) := by
  refine ⟨?_, ?_, ?_, ?_⟩
  · intro c0 cs h0 hall
    have h2 := renderCLC_loop_append_ok L platform pretty strict snippets [] cs c0 hall
    rw [List.append_nil] at h2
    rw [renderCLC, h0]
    simp only
    rw [h2]
    rfl
  · intro c0 h0
    rw [renderCLC, h0]
    rfl
  · intro c e h0
    rw [renderCLC, h0]
  · intro c0 c e pre post s h0 hsplit hpre hs
    obtain ⟨cs, hcs⟩ := exists_objects_of_forall_no_error _ pre hpre
    rw [renderCLC, h0]
    simp only
    rw [hsplit, renderCLC_loop_append_ok L platform pretty strict pre (s :: post) cs c0 hcs,
      renderCLC_loop, hs]

/-- Witness of C9: two snippets appended in order, pretty and compact, and a failing
second snippet. -/
theorem renderCLC_append_witness :
    renderCLC demoLibs "core" "ec2" false false ["alice", "W:bob"]
      = ("2.3.0[ec2/core,ec2/alice,ec2/bob]", none) ∧
    renderCLC demoLibs "core" "ec2" true false []
      = ("2.3.0[  ec2/core]", none) ∧
    renderCLC demoLibs "F:core" "ec2" false false ["alice"]
      = ("", some (GoError.Errorf "error parsing Container Linux Config: bad yaml")) ∧
    renderCLC demoLibs "core" "ec2" false true ["alice", "W:bob", "carol"]
      = ("", some (GoError.Errorf
          "error strict parsing Container Linux Config: deprecated key")) :=
  ⟨((renderCLC_append demoLibs "core" "ec2" false false ["alice", "W:bob"]).1
      ["ec2/core"] [["ec2/alice"], ["ec2/bob"]] rfl
      (List.Forall₂.cons rfl (List.Forall₂.cons rfl List.Forall₂.nil))).trans (by decide),
   ((renderCLC_append demoLibs "core" "ec2" true false []).2.1 ["ec2/core"] rfl).trans
      (by decide),
   (renderCLC_append demoLibs "F:core" "ec2" false false ["alice"]).2.2.1 [] _ rfl,
   (renderCLC_append demoLibs "core" "ec2" false true ["alice", "W:bob", "carol"]).2.2.2
      ["ec2/core"] [] _ ["alice"] ["carol"] "W:bob" rfl rfl (by decide) rfl⟩

/-! ### Every failure aborts the render -/

theorem dataSourceCTConfigRead_of_error (L : Libs) (d : ResourceData) (e : GoError)
    (he : (renderConfig L d).2 = some e) : dataSourceCTConfigRead L d = (d, some e) := by
  unfold dataSourceCTConfigRead
  rcases hr : renderConfig L d with ⟨r, _ | e2⟩
  · rw [hr] at he
    simp at he
  · rw [hr] at he
    simp only [Option.some.injEq] at he
    rw [he]

theorem aborts_of_error (L : Libs) (d : ResourceData) (e : GoError)
    (he : (renderConfig L d).2 = some e) : Aborts L d := by
  refine ⟨e, ?_, dataSourceCTConfigRead_of_error L d e he⟩
  have h1 := renderConfig_empty_of_error L d (by rw [he]; simp)
  exact Prod.ext h1 he

theorem mergeFCC11_error_of_failed (L : Libs) (pretty strict : Bool) (snippets : List String)
    (s : String) (hmem : s ∈ snippets)
    (hs : snippetObject31 L pretty strict s = none) (ign : L.Config31) :
    ∃ e, (mergeFCC11 L ign snippets pretty strict).2 = some e := by
  induction snippets generalizing ign with
  | nil => simp at hmem
  | cons x rest ih =>
    cases hx : snippetObject31 L pretty strict x with
    | some c =>
      rw [mergeFCC11_cons_ok L pretty strict ign x rest c hx]
      rcases List.mem_cons.mp hmem with h | h
      · subst h
        rw [hs] at hx
        simp at hx
      · exact ih h _
    | none =>
      unfold snippetObject31 snippetOptions at hx
      unfold mergeFCC11
      cases ht : L.Translate x { FilesDir := "", Pretty := pretty, Strict := strict } with
      | error e =>
        simp only
        split <;> exact ⟨_, rfl⟩
      | ok sb =>
        simp only [ht] at hx ⊢
        cases hp : L.Parse31 sb with
        | error e => exact ⟨_, rfl⟩
        | ok c => simp [hp] at hx

theorem mergeFCCV10_error_of_failed (L : Libs) (pretty strict : Bool) (snippets : List String)
    (s : String) (hmem : s ∈ snippets)
    (hs : snippetObject30 L pretty strict s = none) (ign : L.Config30) :
    ∃ e, (mergeFCCV10 L ign snippets pretty strict).2 = some e := by
  induction snippets generalizing ign with
  | nil => simp at hmem
  | cons x rest ih =>
    cases hx : snippetObject30 L pretty strict x with
    | some c =>
      rw [mergeFCCV10_cons_ok L pretty strict ign x rest c hx]
      rcases List.mem_cons.mp hmem with h | h
      · subst h
        rw [hs] at hx
        simp at hx
      · exact ih h _
    | none =>
      unfold snippetObject30 snippetOptions at hx
      unfold mergeFCCV10
      cases ht : L.Translate x { FilesDir := "", Pretty := pretty, Strict := strict } with
      | error e =>
        simp only
        split <;> exact ⟨_, rfl⟩
      | ok sb =>
        simp only [ht] at hx ⊢
        cases hp : L.Parse30 sb with
        | error e => exact ⟨_, rfl⟩
        | ok c => simp [hp] at hx

theorem versionB1Path_error_of_failed (L : Libs) (pretty strict : Bool)
    (snippets : List String) (s : String) (hmem : s ∈ snippets)
    (hs : snippetObject31 L pretty strict s = none) (ign : L.Config31) :
    ∃ e, (versionB1Path L ign pretty strict snippets).2 = some e := by
  unfold versionB1Path
  obtain ⟨e, he⟩ := mergeFCC11_error_of_failed L pretty strict snippets s hmem hs ign
  rcases hm : mergeFCC11 L ign snippets pretty strict with ⟨c, _ | e2⟩
  · rw [hm] at he
    simp at he
  · exact ⟨_, rfl⟩

theorem versionB0Path_error_of_failed (L : Libs) (pretty strict : Bool)
    (snippets : List String) (s : String) (hmem : s ∈ snippets)
    (hs : snippetObject30 L pretty strict s = none) (ign : L.Config30) :
    ∃ e, (versionB0Path L ign pretty strict snippets).2 = some e := by
  unfold versionB0Path
  obtain ⟨e, he⟩ := mergeFCCV10_error_of_failed L pretty strict snippets s hmem hs ign
  rcases hm : mergeFCCV10 L ign snippets pretty strict with ⟨c, _ | e2⟩
  · rw [hm] at he
    simp at he
  · exact ⟨_, rfl⟩

theorem clcToIgnition_error_of_fails (L : Libs) (data platform : String) (strict : Bool)
    (h : clcFails L platform strict data = true) :
    ∃ e, clcToIgnition L data platform strict = (L.zero23, some e) := by
  unfold clcFails parseReport convertReport at h
  unfold clcToIgnition
  rcases hp : L.clctParse data with ⟨clc, ast, report⟩
  rw [hp] at h
  simp only at h ⊢
  by_cases h1 : (strict && decide ((L.Entries report).length > 0)) = true
  · rw [if_pos h1]
    exact ⟨_, rfl⟩
  · rw [if_neg h1]
    by_cases h2 : L.IsFatal report = true
    · rw [if_pos h2]
      exact ⟨_, rfl⟩
    · rw [if_neg h2]
      rcases hc : L.clctConvert clc platform ast with ⟨ign, report2⟩
      rw [hc] at h
      simp only at h ⊢
      have h3 : L.IsFatal report2 = true := by
        rcases Bool.or_eq_true _ _ |>.mp h with h | h
        · rcases Bool.or_eq_true _ _ |>.mp h with h | h
          · exfalso
            apply h1
            rcases Bool.and_eq_true _ _ |>.mp h with ⟨ha, hb⟩
            rw [ha]
            cases hE : L.Entries report with
            | nil => simp [hE] at hb
            | cons a t => simp
          · exact absurd h h2
        · exact h
      simp only [hc]
      rw [if_pos h3]
      exact ⟨_, rfl⟩

theorem renderCLC_loop_error_of_failed (L : Libs) (platform : String) (pretty strict : Bool)
    (snippets : List String) (s : String) (hmem : s ∈ snippets)
    (hs : clcFails L platform strict s = true) (ign : L.Config23) :
    ∃ e, (renderCLC_loop L platform pretty strict ign snippets).2 = some e := by
  induction snippets generalizing ign with
  | nil => simp at hmem
  | cons x rest ih =>
    unfold renderCLC_loop
    rcases hc : clcToIgnition L x platform strict with ⟨c, _ | e⟩
    · simp only
      rcases List.mem_cons.mp hmem with h | h
      · subst h
        obtain ⟨e, he⟩ := clcToIgnition_error_of_fails L s platform strict hs
        rw [he] at hc
        simp at hc
      · exact ih h _
    · exact ⟨_, rfl⟩

theorem renderCLC_error_of_failed (L : Libs) (data platform : String) (pretty strict : Bool)
    (snippets : List String)
    (h : clcFails L platform strict data = true ∨
      ∃ s ∈ snippets, clcFails L platform strict s = true) :
    ∃ e, (renderCLC L data platform pretty strict snippets).2 = some e := by
  unfold renderCLC
  rcases hc : clcToIgnition L data platform strict with ⟨c, _ | e⟩
  · simp only
    rcases h with h | ⟨s, hmem, hs⟩
    · obtain ⟨e, he⟩ := clcToIgnition_error_of_fails L data platform strict h
      rw [he] at hc
      simp at hc
    · exact renderCLC_loop_error_of_failed L platform pretty strict snippets s hmem hs c
  · exact ⟨_, rfl⟩

/-- C7, all-or-nothing.  Whenever `renderConfig` returns a non-nil error its string is
empty; the same holds for `mergeFCCSnippets` and `renderCLC`, whatever object had been
merged before the failure; and `dataSourceCTConfigRead` then returns that error and
leaves the resource data as it was, `rendered` and the ID included.  Every failure does
produce such an error, so that the render aborts: a transpile error of the principal
other than the sentinel; on the Fedora CoreOS path, bytes of the principal that both
parsers reject, a snippet at any position that fails to transpile or to parse at the
chosen version, and a failing final serialization; on the Container Linux path, a
principal or a snippet at any position whose parse or conversion fails, and a failing
final serialization. -/
theorem renderConfig_all_or_nothing (L : Libs) (d : ResourceData) :
    ((renderConfig L d).2 ≠ none → (renderConfig L d).1 = "") ∧
    (∀ (ignBytes : String) (pretty strict : Bool) (snippets : List String),
      (mergeFCCSnippets L ignBytes pretty strict snippets).2 ≠ none →
      (mergeFCCSnippets L ignBytes pretty strict snippets).1 = "") ∧
    (∀ (data platform : String) (pretty strict : Bool) (snippets : List String),
      (renderCLC L data platform pretty strict snippets).2 ≠ none →
      (renderCLC L data platform pretty strict snippets).1 = "") ∧
    (∀ e : GoError, (renderConfig L d).2 = some e →
      dataSourceCTConfigRead L d = (d, some e)) ∧
    (∀ e : GoError, e ≠ GoError.ErrNoVariant →
      L.Translate d.content (principalOptions d) = Except.error e → Aborts L d) ∧
    (∀ b : String, L.Translate d.content (principalOptions d) = Except.ok b →
      snippetStrings d.snippets ≠ [] →
      (∀ e1 e0 : String, L.Parse31 b = Except.error e1 → L.Parse30 b = Except.error e0 →
        Aborts L d) ∧
      (∀ (p : L.Config31) (s : String), L.Parse31 b = Except.ok p →
        s ∈ snippetStrings d.snippets →
        snippetObject31 L d.pretty_print d.strict s = none → Aborts L d) ∧
      (∀ (e1 : String) (p : L.Config30) (s : String), L.Parse31 b = Except.error e1 →
        L.Parse30 b = Except.ok p → s ∈ snippetStrings d.snippets →
        snippetObject30 L d.pretty_print d.strict s = none → Aborts L d) ∧
      (∀ (p : L.Config31) (cs : List L.Config31) (e : GoError), L.Parse31 b = Except.ok p →
        List.Forall₂ (fun s c => snippetObject31 L d.pretty_print d.strict s = some c)
          (snippetStrings d.snippets) cs →
        (serialize31 L d.pretty_print (cs.foldl L.Merge31 p)).2 = some e → Aborts L d) ∧
      (∀ (e1 : String) (p : L.Config30) (cs : List L.Config30) (e : GoError),
        L.Parse31 b = Except.error e1 → L.Parse30 b = Except.ok p →
        List.Forall₂ (fun s c => snippetObject30 L d.pretty_print d.strict s = some c)
          (snippetStrings d.snippets) cs →
        (serialize30 L d.pretty_print (cs.foldl L.Merge30 p)).2 = some e → Aborts L d)) ∧
    (L.Translate d.content (principalOptions d) = Except.error GoError.ErrNoVariant →
      ((clcFails L d.platform d.strict d.content = true ∨
          ∃ s ∈ snippetStrings d.snippets, clcFails L d.platform d.strict s = true) →
        Aborts L d) ∧
      (∀ (c0 : L.Config23) (cs : List L.Config23) (e : GoError),
        clcToIgnition L d.content d.platform d.strict = (c0, none) →
        List.Forall₂ (fun s c => clcToIgnition L s d.platform d.strict = (c, none))
          (snippetStrings d.snippets) cs →
        (serialize23 L d.pretty_print (cs.foldl L.Append c0)).2 = some e → Aborts L d)) := by
  refine ⟨renderConfig_empty_of_error L d, mergeFCCSnippets_empty_of_error L,
    renderCLC_empty_of_error L, dataSourceCTConfigRead_of_error L d, ?_, ?_, ?_⟩
  · intro e hne ht
    apply aborts_of_error L d e
    rw [renderConfig_of_translate_not_sentinel L d (by rw [ht]; simpa using hne)]
    unfold fccToIgnition
    unfold principalOptions at ht
    rw [ht]
  · intro b ht hne
    have hr := renderConfig_of_translate_ok L d b hne ht
    refine ⟨?_, ?_, ?_, ?_, ?_⟩
    · intro e1 e0 h31 h30
      apply aborts_of_error L d (GoError.Errorf ("FCC v1.0.0 parse error: " ++ e0))
      rw [hr, mergeFCCSnippets_of_no_parse L b _ _ _ e1 e0 h31 h30]
    · intro p s h31 hmem hs
      obtain ⟨e, he⟩ := versionB1Path_error_of_failed L _ _ _ s hmem hs p
      apply aborts_of_error L d e
      rw [hr, mergeFCCSnippets_of_parse31 L b _ _ _ p h31]
      exact he
    · intro e1 p s h31 h30 hmem hs
      obtain ⟨e, he⟩ := versionB0Path_error_of_failed L _ _ _ s hmem hs p
      apply aborts_of_error L d e
      rw [hr, mergeFCCSnippets_of_parse30 L b _ _ _ e1 p h31 h30]
      exact he
    · intro p cs e h31 hall hser
      apply aborts_of_error L d e
      rw [hr, mergeFCCSnippets_of_parse31 L b _ _ _ p h31]
      unfold versionB1Path
      rw [mergeFCC11_all_ok L _ _ _ cs p hall]
      exact hser
    · intro e1 p cs e h31 h30 hall hser
      apply aborts_of_error L d e
      rw [hr, mergeFCCSnippets_of_parse30 L b _ _ _ e1 p h31 h30]
      unfold versionB0Path
      rw [mergeFCCV10_all_ok L _ _ _ cs p hall]
      exact hser
  · intro ht
    have hr := renderConfig_of_translate_sentinel L d ht
    refine ⟨?_, ?_⟩
    · intro hfail
      obtain ⟨e, he⟩ := renderCLC_error_of_failed L d.content d.platform d.pretty_print
        d.strict (snippetStrings d.snippets) hfail
      apply aborts_of_error L d e
      rw [hr]
      exact he
    · intro c0 cs e h0 hall hser
      apply aborts_of_error L d e
      have h2 := renderCLC_loop_append_ok L d.platform d.pretty_print d.strict
        (snippetStrings d.snippets) [] cs c0 hall
      rw [List.append_nil] at h2
      rw [hr, renderCLC, h0]
      simp only
      rw [h2]
      exact hser

/-- Witness of C7.  A second snippet fails to parse after the first one was merged:
nothing of the merged object is returned and the resource data is untouched.  A snippet
in the middle of the list fails to transpile, a serialization fails, a Container Linux
snippet has a fatal report, and a conversion is fatal: each render aborts. -/
theorem renderConfig_all_or_nothing_witness :
    (mergeFCCV10 demoLibs ["core"] ["B0:alice", "B1:bob"] false false).1 = ["core", "alice"] ∧
    (renderConfig demoLibs (demoData "B0:core" [some "B0:alice", some "B1:bob"])).1 = "" ∧
    dataSourceCTConfigRead demoLibs (demoData "B0:core" [some "B0:alice", some "B1:bob"])
      = (demoData "B0:core" [some "B0:alice", some "B1:bob"],
         some (GoError.Errorf ("FCC v1.0.0 merge error: snippet parse error: " ++
           "unsupported config version, expect v1.0.0"))) ∧
    (Aborts demoLibs (demoData "B1:core" [some "B1:alice", some "Bx", some "B1:bob"]) ∧
      renderConfig demoLibs (demoData "B1:core" [some "B1:alice", some "Bx", some "B1:bob"])
        = ("", some (GoError.Errorf ("FCC v1.1.0 merge error: " ++
            "snippet v1.1.0 translate error: unsupported version")))) ∧
    (Aborts demoLibs (demoData "B1:core" [some "B1:NaN"]) ∧
      renderConfig demoLibs (demoData "B1:core" [some "B1:NaN"])
        = ("", some (GoError.foreign "json: unsupported value: NaN"))) ∧
    (Aborts demoLibs (demoData "core" [some "alice", some "F:bob", some "carol"]) ∧
      renderConfig demoLibs (demoData "core" [some "alice", some "F:bob", some "carol"])
        = ("", some (GoError.Errorf "error parsing Container Linux Config: bad yaml"))) ∧
    (Aborts demoLibs { demoData "core" [] with platform := "bad" } ∧
      renderConfig demoLibs { demoData "core" [] with platform := "bad" }
        = ("", some (GoError.Errorf "error converting to Ignition: unknown platform"))) :=
  ⟨rfl,
   (renderConfig_all_or_nothing demoLibs
      (demoData "B0:core" [some "B0:alice", some "B1:bob"])).1 (by decide),
   (renderConfig_all_or_nothing demoLibs
      (demoData "B0:core" [some "B0:alice", some "B1:bob"])).2.2.2.1 _ (by decide),
   ⟨((renderConfig_all_or_nothing demoLibs
        (demoData "B1:core" [some "B1:alice", some "Bx", some "B1:bob"])).2.2.2.2.2.1
        "3.1:core" rfl (by decide)).2.1 ["core"] "Bx" rfl (by decide) rfl,
    by decide⟩,
   ⟨((renderConfig_all_or_nothing demoLibs
        (demoData "B1:core" [some "B1:NaN"])).2.2.2.2.2.1
        "3.1:core" rfl (by decide)).2.2.2.1 ["core"] [["NaN"]]
        (GoError.foreign "json: unsupported value: NaN") rfl
        (List.Forall₂.cons rfl List.Forall₂.nil) rfl,
    by decide⟩,
   ⟨((renderConfig_all_or_nothing demoLibs
        (demoData "core" [some "alice", some "F:bob", some "carol"])).2.2.2.2.2.2 rfl).1
        (Or.inr ⟨"F:bob", by decide, rfl⟩),
    by decide⟩,
   ⟨((renderConfig_all_or_nothing demoLibs
        { demoData "core" [] with platform := "bad" }).2.2.2.2.2.2 rfl).1 (Or.inl rfl),
    by decide⟩⟩

end CT
